import Mathlib

/-!
Verification development for the semantic-memory subsystem of a narrative
generation assistant.  The Python source is shallowly embedded: pure
functions become Lean functions, I/O collaborators (database queries, the
vector store, the remote embedding endpoint) become explicit inputs, and
fallible code returns Except.  Machine-level byte and word arithmetic is
modelled on Nat with explicit reduction modulo 2^32.
-/

namespace Spec2Proof

/- ### Python string primitives used by the source -/

/-- Python truthiness of an optional string: None and the empty string are falsy. -/
def truthy : Option String → Bool
  | none => false
  | some s => !s.isEmpty

/-- Python `a or b` on optional strings: keep `a` when truthy, else `b`. -/
def pyOr (a : Option String) (b : String) : String :=
  match a with
  | none => b
  | some s => if s.isEmpty then b else s

/-- Python `sep.join(parts)`. -/
def pyJoin (sep : String) : List String → String
  | [] => ""
  | [x] => x
  | x :: xs => x ++ sep ++ pyJoin sep xs

/-- Python whitespace test for a character (the set used by str.split / str.strip). -/
def isPySpace (c : Char) : Bool :=
  c = ' ' ∨ c = '\t' ∨ c = '\n' ∨ c = '\r' ∨ c = '\x0b' ∨ c = '\x0c'

/-- Python `s.strip()` on a character list: drop whitespace from both ends. -/
def pyStrip (l : List Char) : List Char :=
  ((l.dropWhile isPySpace).reverse.dropWhile isPySpace).reverse

/-- Python `s.split()` (no argument): split on runs of whitespace, discarding
empty pieces, over a character list (fuelled; fuel is the list length). -/
def pySplitWsF : Nat → List Char → List (List Char)
  | 0, _ => []
  | _, [] => []
  | fuel + 1, c :: rest =>
    if isPySpace c then pySplitWsF fuel rest
    else
      (c :: rest.takeWhile (fun x => !(isPySpace x))) ::
        pySplitWsF fuel (rest.dropWhile (fun x => !(isPySpace x)))

def pySplitWs (l : List Char) : List (List Char) := pySplitWsF l.length l

/-- Join words with single spaces: the effect of Python `" ".join(words)` on
character lists. -/
def joinWords : List (List Char) → List Char
  | [] => []
  | [w] => w
  | w :: ws => w ++ ' ' :: joinWords ws

/-- Python `" ".join(text.split())`: whitespace normalization used before chunking. -/
def pyClean (text : List Char) : List Char :=
  joinWords (pySplitWs text)

/-- Adjacent-character relation of a cleaned text: no two consecutive
whitespace characters (used to show that every chunk window of length at
least two contains a non-space character). -/
def chR (a b : Char) : Prop := isPySpace a = false ∨ isPySpace b = false

/- ### SHA-256 (hashlib.sha256), over Nat with explicit mod 2^32 -/

def M32 : Nat := 4294967296

def rotr (n x : Nat) : Nat := ((x >>> n) ||| (x <<< (32 - n))) % M32

def smallSigma0 (x : Nat) : Nat := (rotr 7 x) ^^^ (rotr 18 x) ^^^ (x >>> 3)

def smallSigma1 (x : Nat) : Nat := (rotr 17 x) ^^^ (rotr 19 x) ^^^ (x >>> 10)

def bigSigma0 (x : Nat) : Nat := (rotr 2 x) ^^^ (rotr 13 x) ^^^ (rotr 22 x)

def bigSigma1 (x : Nat) : Nat := (rotr 6 x) ^^^ (rotr 11 x) ^^^ (rotr 25 x)

def chF (x y z : Nat) : Nat := (x &&& y) ^^^ ((x ^^^ 4294967295) &&& z)

def majF (x y z : Nat) : Nat := (x &&& y) ^^^ (x &&& z) ^^^ (y &&& z)

def sha256K : List Nat :=
  [1116352408, 1899447441, 3049323471, 3921009573, 961987163,
   1508970993, 2453635748, 2870763221, 3624381080, 310598401,
   607225278, 1426881987, 1925078388, 2162078206, 2614888103,
   3248222580, 3835390401, 4022224774, 264347078, 604807628,
   770255983, 1249150122, 1555081692, 1996064986, 2554220882,
   2821834349, 2952996808, 3210313671, 3336571891, 3584528711,
   113926993, 338241895, 666307205, 773529912, 1294757372,
   1396182291, 1695183700, 1986661051, 2177026350, 2456956037,
   2730485921, 2820302411, 3259730800, 3345764771, 3516065817,
   3600352804, 4094571909, 275423344, 430227734, 506948616,
   659060556, 883997877, 958139571, 1322822218, 1537002063,
   1747873779, 1955562222, 2024104815, 2227730452, 2361852424,
   2428436474, 2756734187, 3204031479, 3329325298]

def sha256H0 : List Nat :=
  [1779033703, 3144134277, 1013904242, 2773480762,
   1359893119, 2600822924, 528734635, 1541459225]

/-- UTF-8 encoding of one code point (`str.encode()`), as byte values. -/
def utf8Bytes (c : Char) : List Nat :=
  let n := c.toNat
  if n < 0x80 then [n]
  else if n < 0x800 then
    [0xc0 ||| (n >>> 6), 0x80 ||| (n &&& 0x3f)]
  else if n < 0x10000 then
    [0xe0 ||| (n >>> 12), 0x80 ||| ((n >>> 6) &&& 0x3f), 0x80 ||| (n &&& 0x3f)]
  else
    [0xf0 ||| (n >>> 18), 0x80 ||| ((n >>> 12) &&& 0x3f),
     0x80 ||| ((n >>> 6) &&& 0x3f), 0x80 ||| (n &&& 0x3f)]

def strBytes (s : String) : List Nat :=
  s.data.foldr (fun c acc => utf8Bytes c ++ acc) []

/-- SHA-256 message padding: append 0x80, zeros, and the 64-bit big-endian bit length. -/
def padMsg (msg : List Nat) : List Nat :=
  let len := msg.length
  let zeros := (64 - ((len + 9) % 64)) % 64
  let bits := 8 * len
  msg ++ [0x80] ++ List.replicate zeros 0 ++
    [(bits >>> 56) % 256, (bits >>> 48) % 256, (bits >>> 40) % 256,
     (bits >>> 32) % 256, (bits >>> 24) % 256, (bits >>> 16) % 256,
     (bits >>> 8) % 256, bits % 256]

/-- Group bytes into big-endian 32-bit words (fuelled; fuel is the list length). -/
def bytesToWords : Nat → List Nat → List Nat
  | 0, _ => []
  | _, [] => []
  | fuel + 1, b0 :: rest =>
    match rest with
    | b1 :: b2 :: b3 :: rest3 =>
      ((b0 <<< 24) ||| (b1 <<< 16) ||| (b2 <<< 8) ||| b3) :: bytesToWords fuel rest3
    | _ => []

/-- One step of the message-schedule extension: append word number `w.length`. -/
def extendStep (w : List Nat) : List Nat :=
  let t := w.length
  w ++ [(smallSigma1 (w.getD (t - 2) 0) + w.getD (t - 7) 0 +
         smallSigma0 (w.getD (t - 15) 0) + w.getD (t - 16) 0) % M32]

def iterate (f : α → α) : Nat → α → α
  | 0, a => a
  | n + 1, a => iterate f n (f a)

/-- Full 64-entry message schedule from the first 16 words. -/
def fullW (w16 : List Nat) : List Nat := iterate extendStep 48 w16

/-- One SHA-256 compression round. -/
def roundStep (w : List Nat) (st : List Nat) (t : Nat) : List Nat :=
  let a := st.getD 0 0
  let b := st.getD 1 0
  let c := st.getD 2 0
  let d := st.getD 3 0
  let e := st.getD 4 0
  let f := st.getD 5 0
  let g := st.getD 6 0
  let h := st.getD 7 0
  let t1 := (h + bigSigma1 e + chF e f g + sha256K.getD t 0 + w.getD t 0) % M32
  let t2 := (bigSigma0 a + majF a b c) % M32
  [(t1 + t2) % M32, a, b, c, (d + t1) % M32, e, f, g]

/-- Compress one 64-byte block into the running hash state. -/
def compressBlock (h0 : List Nat) (block : List Nat) : List Nat :=
  let w := fullW (bytesToWords block.length block)
  let st := (List.range 64).foldl (roundStep w) h0
  List.zipWith (fun x y => (x + y) % M32) h0 st

/-- Split a byte list into 64-byte blocks (fuelled; fuel is the list length). -/
def chunks64 : Nat → List Nat → List (List Nat)
  | 0, _ => []
  | _, [] => []
  | fuel + 1, l => l.take 64 :: chunks64 fuel (l.drop 64)

def sha256Words (bytes : List Nat) : List Nat :=
  let padded := padMsg bytes
  (chunks64 padded.length padded).foldl compressBlock sha256H0

def hexDigitChar (n : Nat) : Char :=
  if n < 10 then Char.ofNat (48 + n) else Char.ofNat (87 + n)

def wordHex (w : Nat) : List Char :=
  [hexDigitChar ((w >>> 28) % 16), hexDigitChar ((w >>> 24) % 16),
   hexDigitChar ((w >>> 20) % 16), hexDigitChar ((w >>> 16) % 16),
   hexDigitChar ((w >>> 12) % 16), hexDigitChar ((w >>> 8) % 16),
   hexDigitChar ((w >>> 4) % 16), hexDigitChar (w % 16)]

/-- `hashlib.sha256(s.encode()).hexdigest()`. -/
def sha256Hex (s : String) : String :=
  String.mk ((sha256Words (strBytes s)).foldr (fun w acc => wordHex w ++ acc) [])

/-- `hashlib.sha256(s.encode()).hexdigest()[:8]`. -/
def sha256Hex8 (s : String) : String :=
  String.mk ((sha256Hex s).data.take 8)

set_option maxRecDepth 100000 in
example : sha256Hex "abc" =
    "ba7816bf8f01cfea414140de5dae2223b00361a396177a9cb410ff61f20015ad" := by decide

set_option maxRecDepth 100000 in
example : sha256Hex "" =
    "e3b0c44298fc1c149afbf4c8996fb92427ae41e4649b934ca495991b7852b855" := by decide

/- ### memory_service.py: embedding configuration resolution -/

/-- The process-wide defaults read from `app.config.settings` (each may be unset). -/
structure AppDefaults where
  default_embedding_mode : Option String
  default_embedding_provider : Option String
  default_embedding_model : Option String
  default_embedding_api_key : Option String
  default_embedding_api_base_url : Option String
deriving DecidableEq, Repr

/-- `self.local_model_name` as computed in `MemoryService.__init__`. -/
def localModelName (d : AppDefaults) : String :=
  let dm := pyOr d.default_embedding_model ""
  if dm.startsWith "sentence-transformers/" then dm
  else "sentence-transformers/paraphrase-multilingual-MiniLM-L12-v2"

/-- `self.default_api_model_name` as computed in `MemoryService.__init__`. -/
def defaultApiModelName (d : AppDefaults) : String :=
  let dm := pyOr d.default_embedding_model ""
  if ¬ dm.isEmpty ∧ ¬ dm.startsWith "sentence-transformers/" then dm
  else "text-embedding-3-small"

/-- A row of the relational `Settings` table for the user (each column nullable). -/
structure UserSettingsRow where
  embedding_mode : Option String
  embedding_provider : Option String
  embedding_model : Option String
  embedding_api_key : Option String
  embedding_api_base_url : Option String
deriving DecidableEq, Repr

/-- A per-call override dict; `none` in a field stands for an absent key or a
stored `None`, both of which `_resolve_embedding_config` skips. -/
structure OverrideCfg where
  embedding_mode : Option String
  embedding_provider : Option String
  embedding_model : Option String
  embedding_api_key : Option String
  embedding_api_base_url : Option String
deriving DecidableEq, Repr

/-- The fully resolved embedding configuration (all keys present). -/
structure EmbCfg where
  embedding_mode : String
  embedding_provider : String
  embedding_model : String
  embedding_api_key : String
  embedding_api_base_url : String
deriving DecidableEq, Repr

/-- Python `s.strip()` on a String. -/
def pyStripStr (s : String) : String := String.mk (pyStrip s.data)

/-- Python `s.lower()` (ASCII case folding suffices for the mode/provider tokens). -/
def pyLower (s : String) : String := String.mk (s.data.map Char.toLower)

/-- Python `s[:n]` on a String. -/
def pyTake (s : String) (n : Nat) : String := String.mk (s.data.take n)

/-- Layer a field through the user-settings row (`user_settings.x or config[..]`). -/
def layerUser (row : Option UserSettingsRow) (f : UserSettingsRow → Option String)
    (base : String) : String :=
  match row with
  | none => base
  | some u => pyOr (f u) base

/-- Layer a field through the override (`if override.get(k) is not None`). -/
def layerOv (ov : Option OverrideCfg) (f : OverrideCfg → Option String)
    (base : String) : String :=
  match ov with
  | none => base
  | some o => (f o).getD base

/-- The merged (pre-normalization) value of a configuration key. -/
def mergedKey (row : Option UserSettingsRow) (ov : Option OverrideCfg)
    (fu : UserSettingsRow → Option String) (fo : OverrideCfg → Option String)
    (dflt : String) : String :=
  layerOv ov fo (layerUser row fu dflt)

/-- Mode normalization: `str(x or "local").strip().lower()`, then anything
other than `local`/`api` coerces to `local`. -/
def normMode (m : String) : String :=
  let m0 := pyLower (pyStripStr (if m.isEmpty then "local" else m))
  if m0 = "local" ∨ m0 = "api" then m0 else "local"

/-- Provider normalization: anything other than `openai`/`custom` coerces to
`openai`. -/
def normProvider (p : String) : String :=
  let p0 := pyLower (pyStripStr (if p.isEmpty then "openai" else p))
  if p0 = "openai" ∨ p0 = "custom" then p0 else "openai"

/-- The normalization step of `_resolve_embedding_config`, applied to the
five merged values. -/
def normalizeCfg (d : AppDefaults) (mode2 provider2 model2 key2 base2 : String) : EmbCfg :=
  if normMode mode2 = "local" then
    { embedding_mode := normMode mode2, embedding_provider := normProvider provider2,
      embedding_model := localModelName d,
      embedding_api_key := key2, embedding_api_base_url := base2 }
  else
    { embedding_mode := normMode mode2, embedding_provider := normProvider provider2,
      embedding_model :=
        if (pyStripStr model2).isEmpty then defaultApiModelName d else pyStripStr model2,
      embedding_api_key := pyStripStr key2,
      embedding_api_base_url :=
        if (pyStripStr base2).isEmpty then "https://api.openai.com/v1" else pyStripStr base2 }

/-- `MemoryService._resolve_embedding_config`.  The three layers: process
defaults, the user's stored settings row (when the db read succeeds and a row
exists), and the per-call override.  User settings merge with `or`
(truthiness); the override merges with `is not None`.  The merged values are
then normalized exactly as in the source. -/
def resolveEmbeddingConfig (d : AppDefaults) (userRow : Option UserSettingsRow)
    (ov : Option OverrideCfg) : EmbCfg :=
  normalizeCfg d
    (mergedKey userRow ov (fun u => u.embedding_mode) (fun o => o.embedding_mode)
      (pyOr d.default_embedding_mode "local"))
    (mergedKey userRow ov (fun u => u.embedding_provider) (fun o => o.embedding_provider)
      (pyOr d.default_embedding_provider "openai"))
    (mergedKey userRow ov (fun u => u.embedding_model) (fun o => o.embedding_model)
      (pyOr d.default_embedding_model (localModelName d)))
    (mergedKey userRow ov (fun u => u.embedding_api_key) (fun o => o.embedding_api_key)
      (pyOr d.default_embedding_api_key ""))
    (mergedKey userRow ov (fun u => u.embedding_api_base_url) (fun o => o.embedding_api_base_url)
      (pyOr d.default_embedding_api_base_url "https://api.openai.com/v1"))

/- ### memory_service.py: collection naming -/

/-- `MemoryService._build_collection_name`. -/
def buildCollectionName (user_id project_id : String) (cfg : EmbCfg) : String :=
  let user_hash := sha256Hex8 user_id
  let project_hash := sha256Hex8 project_id
  let base_name := "u_" ++ user_hash ++ "_p_" ++ project_hash
  if cfg.embedding_mode ≠ "api" then base_name
  else
    let ns := cfg.embedding_provider ++ ":" ++ cfg.embedding_model
    base_name ++ "_e_" ++ sha256Hex8 ns

/- ### memory_service.py: API embedding (`_embed_texts_with_api`) -/

/-- One element of the remote endpoint's `data` array: an optional `index`
(the source reads it with `x.get("index", 0)`) and an optional `embedding`. -/
structure ApiItem where
  index : Option Int
  embedding : Option (List Rat)
deriving DecidableEq, Repr

def sortKey (it : ApiItem) : Int := it.index.getD 0

/-- The sort relation used by `sorted(items, key=lambda x: x.get("index", 0))`. -/
def itemLE (a b : ApiItem) : Prop := sortKey a ≤ sortKey b

instance : DecidableRel itemLE := fun a b => inferInstanceAs (Decidable (sortKey a ≤ sortKey b))

instance : IsTotal ApiItem itemLE := ⟨fun a b => Int.le_total (sortKey a) (sortKey b)⟩

instance : IsTrans ApiItem itemLE := ⟨fun _ _ _ h1 h2 => le_trans h1 h2⟩

/-- The strict key order; used to show that sorting a response whose indices
are pairwise distinct is deterministic. -/
def itemLT (a b : ApiItem) : Prop := sortKey a < sortKey b

instance : IsAntisymm ApiItem itemLT :=
  ⟨fun _ _ h1 h2 => absurd (lt_trans h1 h2) (lt_irrefl _)⟩

/-- The canonical well-formed response for inputs of count `n`: one item per
input index `j`, carrying embedding `e j`. -/
def canonItems (e : Nat → List Rat) (n : Nat) : List ApiItem :=
  (List.range n).map (fun (j : Nat) => ApiItem.mk (some (j : Int)) (some (e j)))

/-- `MemoryService._embed_texts_with_api`.  The HTTP layer is a collaborator;
`respData` is the parsed `data` field of the JSON response (`none` when absent
or not a list).  Configuration checks, the index re-sort, and the count check
are the source's. -/
def embedTextsWithApi (texts : List String) (cfg : EmbCfg)
    (respData : Option (List ApiItem)) : Except String (List (List Rat)) :=
  if cfg.embedding_api_key.isEmpty then
    .error "Embedding API mode enabled but embedding_api_key missing"
  else if cfg.embedding_api_base_url.isEmpty then
    .error "Embedding API mode enabled but embedding_api_base_url missing"
  else
    match respData with
    | none => .error "Embedding API response malformed: data field missing"
    | some items =>
      if items.isEmpty then .error "Embedding API response malformed: data field missing"
      else
        let sortedItems := items.insertionSort itemLE
        let embeddings := sortedItems.filterMap (fun it => it.embedding)
        if embeddings.length ≠ texts.length then
          .error "Embedding count mismatch"
        else .ok embeddings

/-- `MemoryService._embed_texts`: dispatch on the mode.  The local branch
(model loading plus `encode`) is a collaborator whose outcome is
`localResult`; vectors are modelled as already two-dimensional. -/
def embedTexts (cfg : EmbCfg) (texts : List String)
    (respData : Option (List ApiItem))
    (localResult : Except String (List (List Rat))) : Except String (List (List Rat)) :=
  if cfg.embedding_mode = "api" then embedTextsWithApi texts cfg respData
  else localResult

/- ### memory_service.py: store operations and failure recovery -/

/-- `MemoryService.add_memory`.  `getColl` is the outcome of
`get_collection`, `storeAdd` the outcome of `collection.add`; metadata
conversion is outside the claim and modelled as part of `storeAdd`.  The
whole body sits in `try/except Exception: return False`, so the function
yields `.ok` always; `.error` would correspond to an escaping exception. -/
def addMemory (d : AppDefaults) (userRow : Option UserSettingsRow) (ov : Option OverrideCfg)
    (content : String) (respData : Option (List ApiItem))
    (localResult : Except String (List (List Rat)))
    (getColl : Except String Unit) (storeAdd : Except String Unit) : Except String Bool :=
  let cfg := resolveEmbeddingConfig d userRow ov
  let inner : Except String Bool :=
    match getColl with
    | .error e => .error e
    | .ok _ =>
      match embedTexts cfg [content] respData localResult with
      | .error e => .error e
      | .ok embs =>
        match embs.head? with
        | none => .error "list index out of range"
        | some _ =>
          match storeAdd with
          | .error e => .error e
          | .ok _ => .ok true
  match inner with
  | .ok b => .ok b
  | .error _ => .ok false

/-- One entry of the `memories` argument of `batch_add_memories`. -/
structure MemInput where
  id : String
  content : String
  memType : String
deriving DecidableEq, Repr

/-- `MemoryService.batch_add_memories`: empty input short-circuits to 0; the
body is recovered to 0 by `try/except`. -/
def batchAddMemories (d : AppDefaults) (userRow : Option UserSettingsRow) (ov : Option OverrideCfg)
    (memories : List MemInput) (respData : Option (List ApiItem))
    (localResult : Except String (List (List Rat)))
    (getColl : Except String Unit) (storeAdd : Except String Unit) : Except String Nat :=
  if memories.isEmpty then .ok 0
  else
    let cfg := resolveEmbeddingConfig d userRow ov
    let inner : Except String Nat :=
      match getColl with
      | .error e => .error e
      | .ok _ =>
        match embedTexts cfg (memories.map (fun m => m.content)) respData localResult with
        | .error e => .error e
        | .ok _ =>
          match storeAdd with
          | .error e => .error e
          | .ok _ => .ok memories.length
    match inner with
    | .ok n => .ok n
    | .error _ => .ok 0

/- ### memory_service.py: search filter composition -/

inductive WherePred where
  | typeIn (types : List String)
  | importanceGte (v : Rat)
  | chapterGte (n : Int)
  | chapterLte (n : Int)
deriving DecidableEq, Repr

inductive WhereFilter where
  | single (p : WherePred)
  | conj (ps : List WherePred)
deriving DecidableEq, Repr

/-- The filter construction inside `MemoryService.search_memories` (the
`conditions` list and the 0/1/many shape choice).  `memoryTypes = []` covers
both `None` and an empty list (both falsy in the source). -/
def buildWhereFilter (memoryTypes : List String) (minImportance : Rat)
    (chapterRange : Option (Int × Int)) : Option WhereFilter :=
  let conditions : List WherePred :=
    (if ¬ memoryTypes.isEmpty then [WherePred.typeIn memoryTypes] else []) ++
    (if minImportance > 0 then [WherePred.importanceGte minImportance] else []) ++
    (match chapterRange with
     | some (a, b) => [WherePred.chapterGte a, WherePred.chapterLte b]
     | none => [])
  match conditions with
  | [] => none
  | [c] => some (WhereFilter.single c)
  | cs => some (WhereFilter.conj cs)

/-- A raw row of the vector-store query result: (id, document, distance). -/
def RawRow : Type := String × String × Rat

/-- A formatted search result: (id, content, similarity, distance). -/
def MemHit : Type := String × String × Rat × Rat

/-- `MemoryService.search_memories`.  `storeQuery` is the vector store's
`collection.query`, a collaborator receiving the built filter; the body is
recovered to `[]` by `try/except`. -/
def searchMemories (d : AppDefaults) (userRow : Option UserSettingsRow) (ov : Option OverrideCfg)
    (query : String) (memoryTypes : List String) (minImportance : Rat)
    (chapterRange : Option (Int × Int))
    (respData : Option (List ApiItem)) (localResult : Except String (List (List Rat)))
    (getColl : Except String Unit)
    (storeQuery : Option WhereFilter → Except String (List RawRow)) :
    Except String (List MemHit) :=
  let cfg := resolveEmbeddingConfig d userRow ov
  let inner : Except String (List MemHit) :=
    match getColl with
    | .error e => .error e
    | .ok _ =>
      match embedTexts cfg [query] respData localResult with
      | .error e => .error e
      | .ok embs =>
        match embs.head? with
        | none => .error "list index out of range"
        | some _ =>
          match storeQuery (buildWhereFilter memoryTypes minImportance chapterRange) with
          | .error e => .error e
          | .ok rows => .ok (rows.map (fun r => (r.1, r.2.1, 1 - r.2.2, r.2.2)))
  match inner with
  | .ok r => .ok r
  | .error _ => .ok []

/- ### memory_service.py: update_memory -/

/-- A metadata value as accepted by `update_memory` (lists/dicts are
serialized before storage; primitives pass through). -/
inductive MetaVal where
  | str (s : String)
  | num (q : Rat)
  | flag (b : Bool)
  | compound (json : String)
deriving DecidableEq, Repr

/-- `MemoryService.update_memory`.  Returns (return value, whether a
`collection.update` call was issued).  `content = none` or `some ""` and
`metadata = []` are the falsy cases the source skips; exceptions anywhere
are recovered to `False`. -/
def updateMemory (d : AppDefaults) (userRow : Option UserSettingsRow) (ov : Option OverrideCfg)
    (content : Option String) (metadata : List (String × MetaVal))
    (respData : Option (List ApiItem)) (localResult : Except String (List (List Rat)))
    (getColl : Except String Unit) (updateResult : Except String Unit) : Bool × Bool :=
  let cfg := resolveEmbeddingConfig d userRow ov
  match getColl with
  | .error _ => (false, false)
  | .ok _ =>
    let contentStep : Except String Unit :=
      if truthy content then
        match embedTexts cfg [content.getD ""] respData localResult with
        | .error e => .error e
        | .ok embs =>
          match embs.head? with
          | some _ => Except.ok ()
          | none => Except.error "list index out of range"
      else Except.ok ()
    match contentStep with
    | .error _ => (false, false)
    | .ok _ =>
      if truthy content ∨ ¬ metadata.isEmpty then
        match updateResult with
        | .ok _ => (true, true)
        | .error _ => (false, true)
      else (false, false)

/- ### book_analysis_service.py: CJK numeral conversion -/

/-- The `CN_DIGITS` table. -/
def cnDigit : Char → Option Nat
  | '零' => some 0
  | '〇' => some 0
  | '一' => some 1
  | '二' => some 2
  | '两' => some 2
  | '三' => some 3
  | '四' => some 4
  | '五' => some 5
  | '六' => some 6
  | '七' => some 7
  | '八' => some 8
  | '九' => some 9
  | _ => none

/-- The `CN_UNITS` table. -/
def cnUnit : Char → Option Nat
  | '十' => some 10
  | '百' => some 100
  | '千' => some 1000
  | '万' => some 10000
  | _ => none

/-- The accumulation loop of `chinese_to_int` over (total, section, number);
the first character outside both tables aborts with `none`. -/
def cnLoop : List Char → Nat → Nat → Nat → Option (Nat × Nat × Nat)
  | [], total, sec, number => some (total, sec, number)
  | ch :: rest, total, sec, number =>
    match cnDigit ch with
    | some dv => cnLoop rest total sec dv
    | none =>
      match cnUnit ch with
      | none => none
      | some u =>
        if u = 10000 then cnLoop rest (total + (sec + number) * u) 0 0
        else
          let n2 := if number = 0 then 1 else number
          cnLoop rest total (sec + n2 * u) 0

/-- Python `int(s)` on a string of decimal digits. -/
def digitsToNat (l : List Char) : Nat :=
  l.foldl (fun acc c => acc * 10 + (c.toNat - 48)) 0

/-- `chinese_to_int`: strip, all-digit shortcut, sectional accumulation,
and the positivity filter. -/
def chineseToInt (text : List Char) : Option Nat :=
  let raw := pyStrip text
  if raw.isEmpty then none
  else if raw.all Char.isDigit then some (digitsToNat raw)
  else
    match cnLoop raw 0 0 0 with
    | none => none
    | some (t, s, n) =>
      let value := t + s + n
      if value > 0 then some value else none

/-- Membership in the `CN_NUMBER_PATTERN` character class
`[零〇一二三四五六七八九十百千万两]`. -/
def isCnNumChar (c : Char) : Bool := (cnDigit c).isSome ∨ (cnUnit c).isSome

/-- `DIGIT_PATTERN.search`: the first maximal run of decimal digits. -/
def firstDigitRun : List Char → Option (List Char)
  | [] => none
  | c :: rest =>
    if c.isDigit then some (c :: rest.takeWhile Char.isDigit)
    else firstDigitRun rest

/-- `CN_NUMBER_PATTERN.search`: the first maximal run of CJK numeral characters. -/
def firstCnRun : List Char → Option (List Char)
  | [] => none
  | c :: rest =>
    if isCnNumChar c then some (c :: rest.takeWhile isCnNumChar)
    else firstCnRun rest

/-- `extract_chapter_number`: literal digits, then CJK conversion (`if
converted:` treats `None` and 0 as failure), then the positional fallback. -/
def extractChapterNumber (title : List Char) (fallback_index : Nat) : Nat :=
  match firstDigitRun title with
  | some run => digitsToNat run
  | none =>
    match firstCnRun title with
    | some run =>
      match chineseToInt run with
      | some v => if v ≠ 0 then v else fallback_index
      | none => fallback_index
    | none => fallback_index

/- ### book_analysis_service.py: chunking for embedding -/

/-- The `while start < len(cleaned)` loop of `split_text_for_embedding`:
emit the stripped window when non-empty, stop once the window reaches the
end, else advance by `step`.  Fuelled; the caller passes enough fuel for the
loop's strictly increasing `start`. -/
def splitLoop (cleaned : List Char) (cs step : Nat) : Nat → Nat → List (List Char)
  | 0, _ => []
  | fuel + 1, start =>
    if start < cleaned.length then
      let endP := min cleaned.length (start + cs)
      let part := pyStrip ((cleaned.drop start).take (endP - start))
      let rest :=
        if cleaned.length ≤ endP then []
        else splitLoop cleaned cs step fuel (start + step)
      if part.isEmpty then rest else part :: rest
    else []

/-- `split_text_for_embedding`: whitespace-normalize, return the whole text
when short enough, else the overlapping windows of the loop. -/
def splitTextForEmbedding (text : List Char) (chunk_size overlap : Nat) : List (List Char) :=
  let cleaned := pyClean text
  if cleaned.isEmpty then []
  else if cleaned.length ≤ chunk_size then [cleaned]
  else
    let step := max 1 (chunk_size - overlap)
    splitLoop cleaned chunk_size step (cleaned.length + 1) 0

/- ### chapter_context_service.py: data model -/

/-- A parsed `expansion_plan` JSON document; `.get` defaults are applied at
use sites, so every field is optional (lists default to `[]`). -/
structure Plan where
  plot_summary : Option String
  key_events : List String
  character_focus : List String
  emotional_tone : Option String
  narrative_goal : Option String
  conflict_type : Option String
deriving DecidableEq, Repr

/-- A parsed `outline.structure` JSON document. -/
structure OutlineStructure where
  summary : Option String
  scenes : List String
  key_points : List String
  emotion : Option String
  emotional_tone : Option String
  goal : Option String
  characters : List String
deriving DecidableEq, Repr

/-- A JSON text column: `none` = attribute absent/falsy, `some none` =
present but fails to parse (`json.JSONDecodeError`), `some (some v)` = parses. -/
abbrev JsonCol (α : Type) : Type := Option (Option α)

/-- A `Chapter` row (the columns the builders read). -/
structure ChapterRec where
  chapter_number : Int
  title : Option String
  content : Option String
  summary : Option String
  expansion_plan : JsonCol Plan
deriving DecidableEq, Repr

/-- A `Project` row (the columns the builders read). -/
structure ProjectRec where
  title : Option String
  genre : Option String
  theme : Option String
  narrative_perspective : Option String
deriving DecidableEq, Repr

/-- An `Outline` row. -/
structure OutlineRec where
  content : Option String
  struct : JsonCol OutlineStructure
deriving DecidableEq, Repr

/-- A row of the recent-chapters query: (chapter_number, title,
expansion_plan, summary). -/
structure RecentRow where
  chapter_number : Int
  title : Option String
  expansion_plan : JsonCol Plan
  summary : Option String
deriving DecidableEq, Repr

/-- A foreshadow record from the foreshadow service. -/
structure Foreshadow where
  title : String
  plant_chapter_number : Int
  target_resolve_chapter_number : Option Int
  content : String
  resolution_notes : Option String
deriving DecidableEq, Repr

/-- A `Character` row (the columns the builders read). -/
structure CharacterRec where
  id : String
  name : String
  is_organization : Bool
  role_type : Option String
  age : Option String
  gender : Option String
  appearance : Option String
  personality : Option String
  background : Option String
  main_career_id : Option String
  main_career_stage : Option Int
  organization_type : Option String
  organization_purpose : Option String
deriving DecidableEq, Repr

/-- One stage object inside a career's `stages` JSON array. -/
structure CareerStage where
  level : Option Int
  name : Option String
  description : Option String
deriving DecidableEq, Repr

/-- A `Career` row; `stages` and `attribute_bonuses` are JSON text columns. -/
structure CareerRec where
  id : String
  name : String
  typeName : String
  description : Option String
  category : Option String
  stages : JsonCol (List CareerStage)
  max_stage : Int
  requirements : Option String
  special_abilities : Option String
  worldview_rules : Option String
  attribute_bonuses : JsonCol (List (String × String))
deriving DecidableEq, Repr

/-- A `CharacterCareer` association row. -/
structure CharCareerRec where
  character_id : String
  career_id : String
  career_type : String
  current_stage : Int
deriving DecidableEq, Repr

/-- A `CharacterRelationship` row. -/
structure RelRec where
  character_from_id : String
  character_to_id : String
  relationship_name : Option String
deriving DecidableEq, Repr

/-- A row of the member-side organization join:
(member character id, position, organization display name). -/
structure OrgMembershipRow where
  character_id : String
  position : String
  org_name : String
deriving DecidableEq, Repr

/-- An `Organization` row. -/
structure OrganizationRec where
  id : String
  character_id : String
deriving DecidableEq, Repr

/-- A row of the org-side member join:
(organization id, position, member display name). -/
structure OrgMemberRow where
  organization_id : String
  position : String
  member_name : String
deriving DecidableEq, Repr

/-- The relational tables the character/career rendering reads; the builders'
batched queries are modelled as filters over these. -/
structure CharDbEnv where
  rels : List RelRec
  membershipRows : List OrgMembershipRow
  charCareers : List CharCareerRec
  careers : List CareerRec
  organizations : List OrganizationRec
  orgMemberRows : List OrgMemberRow
deriving DecidableEq, Repr

/-- The memory-service collaborator: present or not, and the outcome of its
`search_memories` call as (similarity, content) hits. -/
structure MemorySearchEnv where
  hasService : Bool
  searchResult : Except String (List (Rat × String))

/-- The foreshadow-service collaborator: present or not, whether its calls
raised, and the three query results. -/
structure ForeshadowEnv where
  hasService : Bool
  callsFailed : Bool
  mustResolve : List Foreshadow
  overdue : List Foreshadow
  upcoming : List Foreshadow
deriving DecidableEq, Repr

/-- Python f-string rendering of a nullable string (None prints as "None"). -/
def fstr : Option String → String
  | some s => s
  | none => "None"

/-- Rendering of a similarity for `f"{similarity:.2f}"`; the numeric
formatting itself is irrelevant to the properties proved here. -/
def simFmt (q : Rat) : String := toString q

/- ### chapter_context_service.py: shared helpers -/

/-- `OneToManyContextBuilder._build_chapter_outline_1n`. -/
def buildChapterOutline1N (chapter : ChapterRec) (outline : Option OutlineRec) : Option String :=
  match chapter.expansion_plan with
  | some (some plan) =>
    some ("剧情摘要：" ++ plan.plot_summary.getD "无" ++ "\n\n关键事件：\n" ++
      pyJoin "\n" (plan.key_events.map (fun event => "- " ++ event)) ++
      "\n\n角色焦点：" ++ pyJoin ", " plan.character_focus ++
      "\n情感基调：" ++ plan.emotional_tone.getD "未设定" ++
      "\n叙事目标：" ++ plan.narrative_goal.getD "未设定" ++
      "\n冲突类型：" ++ plan.conflict_type.getD "未设定")
  | some none =>
    match outline with
    | some o => o.content
    | none => some (pyOr chapter.summary "暂无大纲")
  | none =>
    match outline with
    | some o => o.content
    | none => some (pyOr chapter.summary "暂无大纲")

/-- `OneToManyContextBuilder._extract_emotional_tone`. -/
def extractEmotionalTone (chapter : ChapterRec) (outline : Option OutlineRec) : String :=
  let fromOutline : String :=
    match outline with
    | some o =>
      match o.struct with
      | some (some st) =>
        let tone := if truthy st.emotion then st.emotion else st.emotional_tone
        if truthy tone then tone.getD "" else "未设定"
      | some none => "未设定"
      | none => "未设定"
    | none => "未设定"
  match chapter.expansion_plan with
  | some (some plan) =>
    if truthy plan.emotional_tone then plan.emotional_tone.getD "" else fromOutline
  | some none => fromOutline
  | none => fromOutline

/-- The result dict of `_get_last_ending_enhanced`. -/
structure EndingInfo where
  ending_text : Option String
  summary : Option String
  key_events : List String
deriving DecidableEq, Repr

/-- `OneToManyContextBuilder._get_last_ending_enhanced`.  `prevChapter` is
the previous-chapter query result and `prevSummaryMem` the
`chapter_summary` StoryMemory content, both collaborator inputs. -/
def getLastEndingEnhanced (chapter : ChapterRec) (prevChapter : Option ChapterRec)
    (prevSummaryMem : Option String) (max_length : Nat) : EndingInfo :=
  if chapter.chapter_number ≤ 1 then ⟨none, none, []⟩
  else
    match prevChapter with
    | none => ⟨none, none, []⟩
    | some prev =>
      let ending_text : Option String :=
        match prev.content with
        | some c =>
          if c.isEmpty then none
          else
            let content := pyStripStr c
            if content.length ≤ max_length then some content
            else some (String.mk (content.data.drop (content.data.length - max_length)))
        | none => none
      let summaryV : Option String :=
        if truthy prevSummaryMem then some (pyTake (prevSummaryMem.getD "") 300)
        else if truthy prev.summary then some (pyTake (prev.summary.getD "") 300)
        else
          match prev.expansion_plan with
          | some (some plan) => some (pyTake (plan.plot_summary.getD "") 300)
          | some none => none
          | none => none
      let key_events : List String :=
        match prev.expansion_plan with
        | some (some plan) => if plan.key_events.isEmpty then [] else plan.key_events.take 5
        | some none => []
        | none => []
      ⟨ending_text, summaryV, key_events⟩

/-- The line built for one row inside `_build_recent_chapters_context`
(`None` when the row contributes nothing). -/
def recentRowLine (row : RecentRow) : Option String :=
  match row.expansion_plan with
  | some (some plan) =>
    let events_str :=
      if plan.key_events.isEmpty then "" else pyJoin "；" (plan.key_events.take 3)
    let line := "第" ++ toString row.chapter_number ++ "章《" ++ fstr row.title ++ "》：" ++
      plan.plot_summary.getD ""
    some (if events_str.isEmpty then line else line ++ "（关键事件：" ++ events_str ++ "）")
  | some none =>
    if truthy row.summary then
      some ("第" ++ toString row.chapter_number ++ "章《" ++ fstr row.title ++ "》：" ++
        pyTake (row.summary.getD "") 100)
    else none
  | none =>
    if truthy row.summary then
      some ("第" ++ toString row.chapter_number ++ "章《" ++ fstr row.title ++ "》：" ++
        pyTake (row.summary.getD "") 100)
    else none

/-- The ascending re-sort relation on recent rows. -/
def rowLE (a b : RecentRow) : Prop := a.chapter_number ≤ b.chapter_number

instance : DecidableRel rowLE := fun a b => inferInstanceAs (Decidable (a.chapter_number ≤ b.chapter_number))

/-- `OneToManyContextBuilder._build_recent_chapters_context`; `rows` is the
query result (already limited to 10, descending) and `failed` models a raised
query (the body is wrapped in `try/except: return None`). -/
def buildRecentChaptersContext (rows : List RecentRow) (failed : Bool) : Option String :=
  if failed then none
  else if rows.isEmpty then none
  else
    let sortedRows := rows.insertionSort rowLE
    let lines := "【最近章节规划】" :: sortedRows.filterMap recentRowLine
    if lines.length ≤ 1 then none
    else some (pyJoin "\n" lines)

/-- `OneToManyContextBuilder._get_relevant_memories_enhanced`.  The service
call is collaborator input; a `None` outline raises a `TypeError` inside the
`try`, recovered to `None`. -/
def getRelevantMemoriesEnhanced (outlineText : Option String)
    (menv : MemorySearchEnv) : Option String :=
  if ¬ menv.hasService then none
  else
    match outlineText with
    | none => none
    | some _ =>
      match menv.searchResult with
      | .error _ => none
      | .ok mems =>
        let filtered := mems.filter (fun m => m.1 > 6/10)
        if filtered.isEmpty then none
        else
          let lines := "【相关记忆】" ::
            (filtered.take 10).map (fun m => "- (相关度:" ++ simFmt m.1 ++ ") " ++ pyTake m.2 100)
          if lines.length > 1 then some (pyJoin "\n" lines) else none

/-- The lines of one must-resolve foreshadow entry. -/
def mustResolveLines (f : Foreshadow) : List String :=
  ("- " ++ f.title) ::
  ("  埋入章节：第" ++ toString f.plant_chapter_number ++ "章") ::
  ("  伏笔内容：" ++ pyTake f.content 100 ++ (if f.content.length > 100 then "..." else "")) ::
  ((if truthy f.resolution_notes then ["  回收提示：" ++ f.resolution_notes.getD ""] else []) ++ [""])

/-- The lines of one overdue foreshadow entry. -/
def overdueLines (chapter_number : Int) (f : Foreshadow) : List String :=
  let overdue_chapters := chapter_number - f.target_resolve_chapter_number.getD 0
  ("- " ++ f.title ++ " [已超期" ++ toString overdue_chapters ++ "章]") ::
  ("  埋入章节：第" ++ toString f.plant_chapter_number ++ "章，原计划第" ++
    fstr (f.target_resolve_chapter_number.map toString) ++ "章回收") ::
  ("  伏笔内容：" ++ pyTake f.content 80 ++ "...") :: [""]

/-- The line of one upcoming foreshadow entry. -/
def upcomingLine (chapter_number : Int) (f : Foreshadow) : String :=
  let remaining := f.target_resolve_chapter_number.getD 0 - chapter_number
  "- " ++ f.title ++ "（计划第" ++ fstr (f.target_resolve_chapter_number.map toString) ++
    "章回收，还有" ++ toString remaining ++ "章）"

/-- `_get_foreshadow_reminders` (both builder classes contain a verbatim
copy of this method; it is embedded once).  The three service queries and
whether any of them raised are collaborator inputs. -/
def getForeshadowReminders (fenv : ForeshadowEnv) (chapter_number : Int) : Option String :=
  if ¬ fenv.hasService then none
  else if fenv.callsFailed then none
  else
    let lines1 :=
      if fenv.mustResolve.isEmpty then []
      else "【🎯 本章必须回收的伏笔】" :: (fenv.mustResolve.map mustResolveLines).flatten
    let lines2 :=
      if fenv.overdue.isEmpty then []
      else "【⚠️ 超期待回收伏笔】" :: ((fenv.overdue.take 3).map (overdueLines chapter_number)).flatten
    let upcoming_filtered :=
      fenv.upcoming.filter (fun f => f.target_resolve_chapter_number.getD 0 > chapter_number)
    let lines3 :=
      if upcoming_filtered.isEmpty then []
      else ("【📋 即将到期的伏笔（仅供参考）】" ::
        (upcoming_filtered.take 3).map (upcomingLine chapter_number)) ++ [""]
    let lines := lines1 ++ lines2 ++ lines3
    if lines.isEmpty then none else some (pyJoin "\n" lines)

/- ### chapter_context_service.py: character and career rendering -/

/-- `role_type_map.get(c.role_type, c.role_type or '配角')`. -/
def roleTypeLabel (rt : Option String) : String :=
  match rt with
  | some "protagonist" => "主角"
  | some "antagonist" => "反派"
  | some "supporting" => "配角"
  | some s => if s.isEmpty then "配角" else s
  | none => "配角"

/-- Stage-name resolution for a career at a given stage: the first stage
object whose `level` equals the current stage supplies the name; parse
failures and misses fall back to the default label. -/
def stageNameFor (career : CareerRec) (current_stage : Int) : String :=
  let dflt := "第" ++ toString current_stage ++ "阶"
  match career.stages with
  | some (some stages) =>
    match stages.find? (fun st => st.level = some current_stage) with
    | some st => st.name.getD dflt
    | none => dflt
  | some none => dflt
  | none => dflt

/-- `all_char_map.get(cid, default)`. -/
def charNameById (chars : List CharacterRec) (cid : String) (dflt : String) : String :=
  match chars.find? (fun c => c.id = cid) with
  | some c => c.name
  | none => dflt

/-- `careers_map.get(cid)`. -/
def careerById (careers : List CareerRec) (cid : String) : Option CareerRec :=
  careers.find? (fun c => c.id = cid)

/-- The basic-attribute lines shared by both character renderers. -/
def charAttrLines (c : CharacterRec) : List String :=
  (if truthy c.age then ["  年龄: " ++ c.age.getD ""] else []) ++
  (if truthy c.gender then ["  性别: " ++ c.gender.getD ""] else []) ++
  (if truthy c.appearance then ["  外貌: " ++ pyTake (c.appearance.getD "") 100] else []) ++
  (if truthy c.personality then ["  性格: " ++ pyTake (c.personality.getD "") 100] else []) ++
  (if truthy c.background then ["  背景: " ++ pyTake (c.background.getD "") 150] else [])

/-- The head line `【name】(entity_type, role_type)` of a character block. -/
def charHeadLine (c : CharacterRec) : String :=
  "【" ++ c.name ++ "】(" ++ (if c.is_organization then "组织" else "角色") ++ ", " ++
    roleTypeLabel c.role_type ++ ")"

/-- The career-detail block for one career, 1-N variant (description,
category, stage system, special abilities). -/
def careerDetail1N (career : CareerRec) : String :=
  pyJoin "\n" ([career.name ++ " (" ++ career.typeName ++ "职业)"] ++
    (if truthy career.description then ["  描述: " ++ career.description.getD ""] else []) ++
    (if truthy career.category then ["  分类: " ++ career.category.getD ""] else []) ++
    (match career.stages with
     | some (some stages) =>
       if stages.isEmpty then []
       else ("  阶段体系: (共" ++ toString career.max_stage ++ "阶)") ::
         stages.map (fun st =>
           "    " ++ (match st.level with | some l => toString l | none => "?") ++ "阶-" ++
           st.name.getD "未命名" ++ ": " ++ st.description.getD "")
     | some none => ["  阶段体系: 共" ++ toString career.max_stage ++ "阶"]
     | none => []) ++
    (if truthy career.special_abilities then ["  特殊能力: " ++ career.special_abilities.getD ""] else []))

/-- The career-detail block for one career, 1-1 variant (additionally
requirements, worldview rules and attribute bonuses). -/
def careerDetail11 (career : CareerRec) : String :=
  pyJoin "\n" ([career.name ++ " (" ++ career.typeName ++ "职业)"] ++
    (if truthy career.description then ["  描述: " ++ career.description.getD ""] else []) ++
    (if truthy career.category then ["  分类: " ++ career.category.getD ""] else []) ++
    (match career.stages with
     | some (some stages) =>
       if stages.isEmpty then []
       else ("  阶段体系: (共" ++ toString career.max_stage ++ "阶)") ::
         stages.map (fun st =>
           "    " ++ (match st.level with | some l => toString l | none => "?") ++ "阶-" ++
           st.name.getD "未命名" ++ ": " ++ st.description.getD "")
     | some none => ["  阶段体系: 共" ++ toString career.max_stage ++ "阶"]
     | none => []) ++
    (if truthy career.requirements then ["  职业要求: " ++ career.requirements.getD ""] else []) ++
    (if truthy career.special_abilities then ["  特殊能力: " ++ career.special_abilities.getD ""] else []) ++
    (if truthy career.worldview_rules then ["  世界观规则: " ++ career.worldview_rules.getD ""] else []) ++
    (match career.attribute_bonuses with
     | some (some bonuses) =>
       if bonuses.isEmpty then []
       else ["  属性加成: " ++ pyJoin ", " (bonuses.map (fun kv => kv.1 ++ ":" ++ kv.2))]
     | some none => []
     | none => []))

/-- The main/sub career lines of one character, 1-N variant. -/
def careerLines1N (ccSel : List CharCareerRec) (careersMapList : List CareerRec)
    (c : CharacterRec) : List String :=
  let mains := ccSel.filter (fun cc => cc.character_id = c.id ∧ cc.career_type = "main")
  let subs := ccSel.filter (fun cc => cc.character_id = c.id ∧ cc.career_type ≠ "main")
  let hasCC := ¬ (ccSel.filter (fun cc => cc.character_id = c.id)).isEmpty
  if hasCC then
    (mains.filterMap (fun cc =>
      match careerById careersMapList cc.career_id with
      | some career => some ("  主职业: " ++ career.name ++ " (" ++
          toString cc.current_stage ++ "/" ++ toString career.max_stage ++ "阶 - " ++
          stageNameFor career cc.current_stage ++ ")")
      | none => none)) ++
    (subs.filterMap (fun cc =>
      match careerById careersMapList cc.career_id with
      | some career => some ("  副职业: " ++ career.name ++ " (" ++
          toString cc.current_stage ++ "/" ++ toString career.max_stage ++ "阶 - " ++
          stageNameFor career cc.current_stage ++ ")")
      | none => none))
  else if ¬ c.is_organization ∧ truthy c.main_career_id then
    match careerById careersMapList (c.main_career_id.getD "") with
    | some career =>
      let stage := match c.main_career_stage with
        | some n => if n = 0 then 1 else n
        | none => 1
      ["  主职业: " ++ career.name ++ "（第" ++ toString stage ++ "阶段）"]
    | none => []
  else []

/-- The relationship-network line of one character, 1-N variant (built from
the batched `char_rels_map`, which appends a relationship once per selected
endpoint). -/
def relLines1N (allCharacters : List CharacterRec) (relsSel : List RelRec)
    (c : CharacterRec) : List String :=
  let relsForC := (relsSel.map (fun r =>
      (if r.character_from_id = c.id then [r] else []) ++
      (if r.character_to_id = c.id then [r] else []))).flatten
  if ¬ c.is_organization ∧ ¬ relsForC.isEmpty then
    let rel_parts := relsForC.map (fun r =>
      let target_name := if r.character_from_id = c.id
        then charNameById allCharacters r.character_to_id "未知"
        else charNameById allCharacters r.character_from_id "未知"
      "与" ++ target_name ++ "：" ++ pyOr r.relationship_name "相关")
    ["  关系网络: " ++ pyJoin "；" rel_parts]
  else []

/-- The organization-membership line of one non-organization character. -/
def orgBelongLines1N (membershipSel : List OrgMembershipRow) (c : CharacterRec) : List String :=
  let memberships := membershipSel.filter (fun m => m.character_id = c.id)
  if ¬ c.is_organization ∧ ¬ memberships.isEmpty then
    ["  组织归属: " ++ pyJoin "、"
      ((memberships.take 2).map (fun m => m.org_name ++ "（" ++ m.position ++ "）"))]
  else []

/-- The organization-specific lines of one organization character, 1-N
variant (type, purpose, up to five members). -/
def orgSpecificLines1N (db : CharDbEnv) (orgsSel : List OrganizationRec)
    (c : CharacterRec) : List String :=
  if c.is_organization then
    (if truthy c.organization_type then
      ["  组织类型: " ++ c.organization_type.getD ""] else []) ++
    (if truthy c.organization_purpose then
      ["  组织目的: " ++ pyTake (c.organization_purpose.getD "") 100] else []) ++
    (let rows := db.orgMemberRows.filter (fun m =>
        match orgsSel.find? (fun o => o.id = m.organization_id) with
        | some o => o.character_id = c.id
        | none => false)
     if rows.isEmpty then []
     else ["  组织成员: " ++ pyJoin "、"
       ((rows.take 5).map (fun m => m.member_name ++ "（" ++ m.position ++ "）"))])
  else []

/-- One character block of `_build_chapter_characters_1n`. -/
def charInfo1N (allCharacters : List CharacterRec) (db : CharDbEnv)
    (relsSel : List RelRec) (membershipSel : List OrgMembershipRow)
    (ccSel : List CharCareerRec) (careersMapList : List CareerRec)
    (orgsSel : List OrganizationRec) (c : CharacterRec) : String :=
  pyJoin "\n" ([charHeadLine c] ++ charAttrLines c ++
    careerLines1N ccSel careersMapList c ++
    relLines1N allCharacters relsSel c ++
    orgBelongLines1N membershipSel c ++
    orgSpecificLines1N db orgsSel c)

/-- `OneToManyContextBuilder._build_chapter_characters_1n`: the batched
relational queries become filters over the tables in `db`; returns
(characters text, careers text or None). -/
def buildChapterCharacters1N (chapter : ChapterRec) (allCharacters : List CharacterRec)
    (db : CharDbEnv) : String × Option String :=
  if allCharacters.isEmpty then ("暂无角色信息", none)
  else
    let filterNames : List String :=
      match chapter.expansion_plan with
      | some (some plan) => plan.character_focus
      | some none => []
      | none => []
    let charsFiltered :=
      if filterNames.isEmpty then allCharacters
      else allCharacters.filter (fun c => filterNames.contains c.name)
    if charsFiltered.isEmpty then ("暂无相关角色", none)
    else
      let characters := charsFiltered.take 10
      let ids := characters.map (fun c => c.id)
      let relsSel := db.rels.filter
        (fun r => ids.contains r.character_from_id ∨ ids.contains r.character_to_id)
      let nonOrgIds := (characters.filter (fun c => ¬ c.is_organization)).map (fun c => c.id)
      let membershipSel := db.membershipRows.filter (fun m => nonOrgIds.contains m.character_id)
      let ccSel := db.charCareers.filter (fun cc => ids.contains cc.character_id)
      let careerIds := ccSel.map (fun cc => cc.career_id) ++
        (characters.filterMap (fun c =>
          if ¬ c.is_organization ∧ truthy c.main_career_id then c.main_career_id else none))
      let careersMapList :=
        if careerIds.isEmpty then [] else db.careers.filter (fun c => careerIds.contains c.id)
      let orgChars := characters.filter (fun c => c.is_organization)
      let orgsSel :=
        if orgChars.isEmpty then []
        else db.organizations.filter
          (fun o => (orgChars.map (fun c => c.id)).contains o.character_id)
      let parts := characters.map
        (charInfo1N allCharacters db relsSel membershipSel ccSel careersMapList orgsSel)
      let charactersText := pyJoin "\n\n" parts
      let careersParts := careersMapList.map careerDetail1N
      let careersText := if careersParts.isEmpty then none else some (pyJoin "\n\n" careersParts)
      (charactersText, careersText)

/-- The career lines of one character, 1-1 variant (sub careers rendered as
an indented block). -/
def careerLines11 (ccAll : List CharCareerRec) (careersMapList : List CareerRec)
    (char_id : String) : List String :=
  let mains := ccAll.filter (fun cc => cc.character_id = char_id ∧ cc.career_type = "main")
  let subs := ccAll.filter (fun cc => cc.character_id = char_id ∧ cc.career_type ≠ "main")
  let hasCC := ¬ (ccAll.filter (fun cc => cc.character_id = char_id)).isEmpty
  if hasCC then
    (mains.filterMap (fun cc =>
      match careerById careersMapList cc.career_id with
      | some career => some ("  主职业: " ++ career.name ++ " (" ++
          toString cc.current_stage ++ "/" ++ toString career.max_stage ++ "阶 - " ++
          stageNameFor career cc.current_stage ++ ")")
      | none => none)) ++
    (if ¬ subs.isEmpty then
      "  副职业:" :: subs.filterMap (fun cc =>
        match careerById careersMapList cc.career_id with
        | some career => some ("    - " ++ career.name ++ " (" ++
            toString cc.current_stage ++ "/" ++ toString career.max_stage ++ "阶 - " ++
            stageNameFor career cc.current_stage ++ ")")
        | none => none)
     else [])
  else []

/-- The relationship-network line of one character, 1-1 variant (per-character
query; the name map contains only the related ids). -/
def relLines11 (allCharacters : List CharacterRec) (db : CharDbEnv)
    (c : CharacterRec) : List String :=
  let relsForC := db.rels.filter
    (fun r => r.character_from_id = c.id ∨ r.character_to_id = c.id)
  let relatedIds := (relsForC.map (fun r => r.character_from_id) ++
    relsForC.map (fun r => r.character_to_id)).filter (fun x => x ≠ c.id)
  if ¬ c.is_organization ∧ ¬ relsForC.isEmpty ∧ ¬ relatedIds.isEmpty then
    let rel_parts := relsForC.map (fun r =>
      let look := fun x =>
        if relatedIds.contains x then charNameById allCharacters x "未知" else "未知"
      let target_name := if r.character_from_id = c.id
        then look r.character_to_id
        else look r.character_from_id
      "与" ++ target_name ++ "：" ++ pyOr r.relationship_name "相关")
    ["  关系网络: " ++ pyJoin "；" rel_parts]
  else []

/-- The organization-specific lines of one organization character, 1-1
variant (all members, join truncated to 100 characters). -/
def orgSpecificLines11 (db : CharDbEnv) (c : CharacterRec) : List String :=
  if c.is_organization then
    (if truthy c.organization_type then
      ["  组织类型: " ++ c.organization_type.getD ""] else []) ++
    (if truthy c.organization_purpose then
      ["  组织目的: " ++ pyTake (c.organization_purpose.getD "") 100] else []) ++
    (match db.organizations.find? (fun o => o.character_id = c.id) with
     | some org =>
       let members := db.orgMemberRows.filter (fun m => m.organization_id = org.id)
       if members.isEmpty then []
       else ["  组织成员: " ++ pyTake (pyJoin "、"
         (members.map (fun m => m.member_name ++ "（" ++ m.position ++ "）"))) 100]
     | none => [])
  else []

/-- One character block of `_build_characters_and_careers` (1-1 mode); ids
missing from the re-query are skipped (`continue`). -/
def charInfo11 (allCharacters : List CharacterRec) (db : CharDbEnv)
    (ccAll : List CharCareerRec) (careersMapList : List CareerRec)
    (fullChars : List CharacterRec) (char_id : String) : Option String :=
  match fullChars.find? (fun c => c.id = char_id) with
  | none => none
  | some c =>
    some (pyJoin "\n" ([charHeadLine c] ++ charAttrLines c ++
      careerLines11 ccAll careersMapList char_id ++
      relLines11 allCharacters db c ++
      orgSpecificLines11 db c))

/-- `OneToOneContextBuilder._build_characters_and_careers`. -/
def buildCharactersAndCareers11 (allCharacters : List CharacterRec) (db : CharDbEnv)
    (characters : List CharacterRec) (filterNames : List String) : String × Option String :=
  if characters.isEmpty then ("暂无角色信息", none)
  else
    let filtered :=
      if filterNames.isEmpty then characters
      else
        let f := characters.filter (fun c => filterNames.contains c.name)
        if f.isEmpty then characters else f
    let ids := filtered.map (fun c => c.id)
    if ids.isEmpty then ("暂无角色信息", none)
    else
      let fullChars := allCharacters.filter (fun c => ids.contains c.id)
      let ccAll := db.charCareers.filter (fun cc => ids.contains cc.character_id)
      let careerIds := ccAll.map (fun cc => cc.career_id)
      let careersMapList :=
        if careerIds.isEmpty then [] else db.careers.filter (fun c => careerIds.contains c.id)
      let parts := (ids.take 10).filterMap (charInfo11 allCharacters db ccAll careersMapList fullChars)
      let charactersText := pyJoin "\n\n" parts
      let careersParts := careersMapList.map careerDetail11
      let careersText := if careersParts.isEmpty then none else some (pyJoin "\n\n" careersParts)
      (charactersText, careersText)

/- ### chapter_context_service.py: the two context shapes and builders -/

/-- `OneToManyContext` (the textual and numeric fields; `context_stats`
holds only derived lengths and is omitted).  Fields the source may leave as
`None` or assign possibly-`None` values are `Option String`. -/
structure OneToManyContext where
  chapter_outline : Option String
  recent_chapters_context : Option String
  continuation_point : Option String
  previous_chapter_summary : Option String
  previous_chapter_events : Option (List String)
  target_word_count : Int
  min_word_count : Int
  max_word_count : Int
  narrative_perspective : String
  chapter_number : Int
  chapter_title : String
  title : String
  genre : String
  theme : String
  chapter_characters : String
  chapter_careers : Option String
  emotional_tone : String
  relevant_memories : Option String
  foreshadow_reminders : Option String
deriving Repr

/-- `OneToOneContext`. -/
structure OneToOneContext where
  chapter_outline : Option String
  target_word_count : Int
  min_word_count : Int
  max_word_count : Int
  narrative_perspective : String
  chapter_number : Int
  chapter_title : String
  title : String
  genre : String
  theme : String
  continuation_point : Option String
  previous_chapter_summary : Option String
  chapter_characters : String
  chapter_careers : Option String
  foreshadow_reminders : Option String
  relevant_memories : Option String
deriving Repr

/-- The collaborator inputs of `OneToManyContextBuilder.build`. -/
structure OneToManyEnv where
  recentRows : List RecentRow
  recentFailed : Bool
  prevChapter : Option ChapterRec
  prevSummaryMem : Option String
  allCharacters : List CharacterRec
  chardb : CharDbEnv
  memory : MemorySearchEnv
  foreshadow : ForeshadowEnv

/-- `OneToManyContextBuilder.build`. -/
def buildOneToMany (chapter : ChapterRec) (project : ProjectRec) (outline : Option OutlineRec)
    (target_word_count : Int) (temp_narrative_perspective : Option String)
    (env : OneToManyEnv) : OneToManyContext :=
  let narrative_perspective :=
    pyOr temp_narrative_perspective (pyOr project.narrative_perspective "第三人称")
  let ending := getLastEndingEnhanced chapter env.prevChapter env.prevSummaryMem 500
  let cc := buildChapterCharacters1N chapter env.allCharacters env.chardb
  let chapter_outline := buildChapterOutline1N chapter outline
  { chapter_number := chapter.chapter_number
    chapter_title := pyOr chapter.title ""
    title := pyOr project.title ""
    genre := pyOr project.genre ""
    theme := pyOr project.theme ""
    target_word_count := target_word_count
    min_word_count := max 500 (target_word_count - 500)
    max_word_count := target_word_count + 1000
    narrative_perspective := narrative_perspective
    chapter_outline := chapter_outline
    recent_chapters_context :=
      if chapter.chapter_number > 1 then
        buildRecentChaptersContext env.recentRows env.recentFailed
      else none
    continuation_point := if chapter.chapter_number = 1 then none else ending.ending_text
    previous_chapter_summary := if chapter.chapter_number = 1 then none else ending.summary
    previous_chapter_events := if chapter.chapter_number = 1 then none else some ending.key_events
    chapter_characters := cc.1
    chapter_careers := cc.2
    emotional_tone := extractEmotionalTone chapter outline
    relevant_memories :=
      if env.memory.hasService then getRelevantMemoriesEnhanced chapter_outline env.memory
      else none
    foreshadow_reminders :=
      if env.foreshadow.hasService then getForeshadowReminders env.foreshadow chapter.chapter_number
      else none }

/-- `OneToOneContextBuilder._build_outline_from_structure` (its `chapter`
parameter is unused in the source as well). -/
def buildOutlineFromStructure (outline : Option OutlineRec) (_chapter : ChapterRec) : Option String :=
  match outline with
  | some o =>
    match o.struct with
    | some (some st) =>
      let parts :=
        (if truthy st.summary then ["【章节概要】\n" ++ st.summary.getD ""] else []) ++
        (if ¬ st.scenes.isEmpty then
          ["【场景设定】\n" ++ pyJoin "\n" (st.scenes.map (fun sc => "- " ++ sc))] else []) ++
        (if ¬ st.key_points.isEmpty then
          ["【情节要点】\n" ++ pyJoin "\n" (st.key_points.map (fun p => "- " ++ p))] else []) ++
        (if truthy st.emotion then ["【情感基调】\n" ++ st.emotion.getD ""] else []) ++
        (if truthy st.goal then ["【叙事目标】\n" ++ st.goal.getD ""] else [])
      some (pyJoin "\n\n" parts)
    | some none => o.content
    | none => o.content
  | none => some "暂无大纲"

/-- The inline memory retrieval of `OneToOneContextBuilder.build` (guarded by
`if self.memory_service and context.chapter_outline:`; the body recovers to
`None` on exceptions). -/
def getRelevantMemories11 (outlineText : Option String) (menv : MemorySearchEnv) : Option String :=
  if menv.hasService ∧ truthy outlineText then
    match menv.searchResult with
    | .error _ => none
    | .ok mems =>
      let filtered := mems.filter (fun m => m.1 > 6/10)
      if filtered.isEmpty then none
      else some (pyJoin "\n" ("【相关记忆】" ::
        (filtered.take 10).map (fun m => "- (相关度:" ++ simFmt m.1 ++ ") " ++ pyTake m.2 100)))
  else none

/-- The collaborator inputs of `OneToOneContextBuilder.build`. -/
structure OneToOneEnv where
  prevChapter : Option ChapterRec
  prevSummaryMem : Option String
  allCharacters : List CharacterRec
  chardb : CharDbEnv
  memory : MemorySearchEnv
  foreshadow : ForeshadowEnv

/-- `OneToOneContextBuilder.build`. -/
def buildOneToOne (chapter : ChapterRec) (project : ProjectRec) (outline : Option OutlineRec)
    (target_word_count : Int) (env : OneToOneEnv) : OneToOneContext :=
  let chapter_outline := buildOutlineFromStructure outline chapter
  let contSummary : Option String × Option String :=
    if chapter.chapter_number > 1 then
      match env.prevChapter with
      | some prev =>
        if truthy prev.content then
          let content := pyStripStr (prev.content.getD "")
          let cp := if content.length ≤ 500 then content
            else String.mk (content.data.drop (content.data.length - 500))
          let ps :=
            if truthy env.prevSummaryMem then some (pyTake (env.prevSummaryMem.getD "") 300)
            else if truthy prev.summary then some (pyTake (prev.summary.getD "") 300)
            else none
          (some cp, ps)
        else (none, none)
      | none => (none, none)
    else (none, none)
  let character_names : List String :=
    match outline with
    | some o =>
      match o.struct with
      | some (some st) => st.characters
      | some none => []
      | none => []
    | none => []
  let chars : String × Option String :=
    if ¬ character_names.isEmpty then
      let queried := env.allCharacters.filter (fun c => character_names.contains c.name)
      if ¬ queried.isEmpty then
        buildCharactersAndCareers11 env.allCharacters env.chardb queried character_names
      else ("暂无角色信息", none)
    else ("暂无角色信息", none)
  { chapter_number := chapter.chapter_number
    chapter_title := pyOr chapter.title ""
    title := pyOr project.title ""
    genre := pyOr project.genre ""
    theme := pyOr project.theme ""
    target_word_count := target_word_count
    min_word_count := max 500 (target_word_count - 500)
    max_word_count := target_word_count + 1000
    narrative_perspective := pyOr project.narrative_perspective "第三人称"
    chapter_outline := chapter_outline
    continuation_point := contSummary.1
    previous_chapter_summary := contSummary.2
    chapter_characters := chars.1
    chapter_careers := chars.2
    foreshadow_reminders :=
      if env.foreshadow.hasService then getForeshadowReminders env.foreshadow chapter.chapter_number
      else none
    relevant_memories := getRelevantMemories11 chapter_outline env.memory }

/-- A textual field that never holds the empty string (None is allowed). -/
def optNonempty (o : Option String) : Prop := ∀ s, o = some s → s ≠ ""

/- ### General lemmas about the Python string primitives -/

theorem string_mk_ne_empty {l : List Char} (h : l ≠ []) : String.mk l ≠ "" := by
  intro he
  exact h (by simpa using congrArg String.data he)

theorem data_ne_nil_of_ne_empty {s : String} (h : s ≠ "") : s.data ≠ [] := by
  intro hd
  exact h (String.ext (by simpa using hd))

theorem append_ne_empty_of_left {a : String} (b : String) (h : a ≠ "") : a ++ b ≠ "" := by
  intro he
  have hd := congrArg String.data he
  rw [String.data_append] at hd
  simp only [List.append_eq_nil] at hd
  exact data_ne_nil_of_ne_empty h hd.1

theorem append_ne_empty_of_right (a : String) {b : String} (h : b ≠ "") : a ++ b ≠ "" := by
  intro he
  have hd := congrArg String.data he
  rw [String.data_append] at hd
  simp only [List.append_eq_nil] at hd
  exact data_ne_nil_of_ne_empty h hd.2

theorem pyJoin_cons_ne_empty (sep : String) {a : String} (t : List String) (h : a ≠ "") :
    pyJoin sep (a :: t) ≠ "" := by
  cases t with
  | nil => simpa [pyJoin] using h
  | cons b t =>
    show a ++ sep ++ pyJoin sep (b :: t) ≠ ""
    exact append_ne_empty_of_left _ (append_ne_empty_of_left _ h)

theorem pyTake_ne_empty {s : String} (n : Nat) (hs : s ≠ "") (hn : 0 < n) :
    pyTake s n ≠ "" := by
  have hd := data_ne_nil_of_ne_empty hs
  unfold pyTake
  apply string_mk_ne_empty
  cases hl : s.data with
  | nil => exact absurd hl hd
  | cons c l =>
    cases n with
    | zero => omega
    | succ m => simp [hl]

theorem truthy_some_ne_empty {s : String} (h : truthy (some s) = true) : s ≠ "" := by
  intro he
  subst he
  exact absurd h (by decide)

theorem truthy_getD_ne_empty {o : Option String} (h : truthy o = true) : o.getD "" ≠ "" := by
  cases o with
  | none => simp [truthy] at h
  | some s => exact truthy_some_ne_empty h

/- ### C2: search filter composition -/

/-- C2: in `search_memories`, zero predicates pass no filter, one predicate is
passed bare, and two or more predicates are passed as an explicit `$and`
conjunction, where a type filter, a positive `min_importance`, and each bound
of a chapter range each contribute one predicate (all eight presence
combinations are characterized). -/
theorem c2_filter_shape (types : List String) (imp : Rat) (cr : Option (Int × Int)) :
    (types = [] → imp ≤ 0 → cr = none →
      buildWhereFilter types imp cr = none) ∧
    (types ≠ [] → imp ≤ 0 → cr = none →
      buildWhereFilter types imp cr = some (WhereFilter.single (WherePred.typeIn types))) ∧
    (types = [] → 0 < imp → cr = none →
      buildWhereFilter types imp cr = some (WhereFilter.single (WherePred.importanceGte imp))) ∧
    (∀ a b, types = [] → imp ≤ 0 → cr = some (a, b) →
      buildWhereFilter types imp cr =
        some (WhereFilter.conj [WherePred.chapterGte a, WherePred.chapterLte b])) ∧
    (types ≠ [] → 0 < imp → cr = none →
      buildWhereFilter types imp cr =
        some (WhereFilter.conj [WherePred.typeIn types, WherePred.importanceGte imp])) ∧
    (∀ a b, types ≠ [] → imp ≤ 0 → cr = some (a, b) →
      buildWhereFilter types imp cr =
        some (WhereFilter.conj
          [WherePred.typeIn types, WherePred.chapterGte a, WherePred.chapterLte b])) ∧
    (∀ a b, types = [] → 0 < imp → cr = some (a, b) →
      buildWhereFilter types imp cr =
        some (WhereFilter.conj
          [WherePred.importanceGte imp, WherePred.chapterGte a, WherePred.chapterLte b])) ∧
    (∀ a b, types ≠ [] → 0 < imp → cr = some (a, b) →
      buildWhereFilter types imp cr =
        some (WhereFilter.conj
          [WherePred.typeIn types, WherePred.importanceGte imp,
           WherePred.chapterGte a, WherePred.chapterLte b])) := by
  refine ⟨?_, ?_, ?_, ?_, ?_, ?_, ?_, ?_⟩
  · rintro rfl h2 rfl
    simp [buildWhereFilter, not_lt.mpr h2]
  · rintro h1 h2 rfl
    simp [buildWhereFilter, not_lt.mpr h2, List.isEmpty_iff, h1]
  · rintro rfl h2 rfl
    simp [buildWhereFilter, h2]
  · rintro a b rfl h2 rfl
    simp [buildWhereFilter, not_lt.mpr h2]
  · rintro h1 h2 rfl
    simp [buildWhereFilter, h2, List.isEmpty_iff, h1]
  · rintro a b h1 h2 rfl
    simp [buildWhereFilter, not_lt.mpr h2, List.isEmpty_iff, h1]
  · rintro a b rfl h2 rfl
    simp [buildWhereFilter, h2]
  · rintro a b h1 h2 rfl
    simp [buildWhereFilter, h2, List.isEmpty_iff, h1]

/-- Witness for C2 at concrete 0/1/2/4-predicate inputs. -/
theorem c2_filter_shape_witness :
    buildWhereFilter [] 0 none = none ∧
    buildWhereFilter ["t"] 0 none = some (WhereFilter.single (WherePred.typeIn ["t"])) ∧
    buildWhereFilter [] 0 (some (2, 5)) =
      some (WhereFilter.conj [WherePred.chapterGte 2, WherePred.chapterLte 5]) ∧
    buildWhereFilter ["t"] (1/2) (some (2, 5)) =
      some (WhereFilter.conj
        [WherePred.typeIn ["t"], WherePred.importanceGte (1/2),
         WherePred.chapterGte 2, WherePred.chapterLte 5]) :=
  ⟨(c2_filter_shape [] 0 none).1 rfl le_rfl rfl,
   (c2_filter_shape ["t"] 0 none).2.1 (by decide) le_rfl rfl,
   (c2_filter_shape [] 0 (some (2, 5))).2.2.2.1 2 5 rfl le_rfl rfl,
   (c2_filter_shape ["t"] (1/2) (some (2, 5))).2.2.2.2.2.2.2 2 5 (by decide) (by norm_num) rfl⟩

/- ### C3: embedding configuration resolution -/

theorem normMode_cases (m : String) : normMode m = "local" ∨ normMode m = "api" := by
  unfold normMode
  by_cases h : pyLower (pyStripStr (if m.isEmpty then "local" else m)) = "local" ∨
      pyLower (pyStripStr (if m.isEmpty then "local" else m)) = "api"
  · rw [if_pos h]; exact h
  · rw [if_neg h]; exact Or.inl rfl

theorem normProvider_cases (p : String) :
    normProvider p = "openai" ∨ normProvider p = "custom" := by
  unfold normProvider
  by_cases h : pyLower (pyStripStr (if p.isEmpty then "openai" else p)) = "openai" ∨
      pyLower (pyStripStr (if p.isEmpty then "openai" else p)) = "custom"
  · rw [if_pos h]; exact h
  · rw [if_neg h]; exact Or.inl rfl

theorem normMode_eq (m : String) :
    normMode m =
      if ¬ m.isEmpty = true ∧ pyLower (pyStripStr m) = "api" then "api" else "local" := by
  unfold normMode
  by_cases he : m.isEmpty = true
  · have hng : ¬ (¬ m.isEmpty = true ∧ pyLower (pyStripStr m) = "api") :=
      fun h => h.1 he
    rw [if_neg hng, if_pos he]
    decide
  · by_cases ha : pyLower (pyStripStr m) = "api"
    · have hpos : ¬ m.isEmpty = true ∧ pyLower (pyStripStr m) = "api" := ⟨he, ha⟩
      rw [if_pos hpos, if_neg he]
      have hor : pyLower (pyStripStr m) = "local" ∨ pyLower (pyStripStr m) = "api" :=
        Or.inr ha
      rw [if_pos hor]
      exact ha
    · have hng : ¬ (¬ m.isEmpty = true ∧ pyLower (pyStripStr m) = "api") :=
        fun h => ha h.2
      rw [if_neg hng, if_neg he]
      by_cases hl : pyLower (pyStripStr m) = "local"
      · have hor : pyLower (pyStripStr m) = "local" ∨ pyLower (pyStripStr m) = "api" :=
          Or.inl hl
        rw [if_pos hor]
        exact hl
      · have hnor : ¬ (pyLower (pyStripStr m) = "local" ∨ pyLower (pyStripStr m) = "api") :=
          fun h => h.elim hl ha
        rw [if_neg hnor]

theorem normProvider_eq (p : String) :
    normProvider p =
      if ¬ p.isEmpty = true ∧ pyLower (pyStripStr p) = "custom" then "custom"
      else "openai" := by
  unfold normProvider
  by_cases he : p.isEmpty = true
  · have hng : ¬ (¬ p.isEmpty = true ∧ pyLower (pyStripStr p) = "custom") :=
      fun h => h.1 he
    rw [if_neg hng, if_pos he]
    decide
  · by_cases hc : pyLower (pyStripStr p) = "custom"
    · have hpos : ¬ p.isEmpty = true ∧ pyLower (pyStripStr p) = "custom" := ⟨he, hc⟩
      rw [if_pos hpos, if_neg he]
      have hor : pyLower (pyStripStr p) = "openai" ∨ pyLower (pyStripStr p) = "custom" :=
        Or.inr hc
      rw [if_pos hor]
      exact hc
    · have hng : ¬ (¬ p.isEmpty = true ∧ pyLower (pyStripStr p) = "custom") :=
        fun h => hc h.2
      rw [if_neg hng, if_neg he]
      by_cases ho : pyLower (pyStripStr p) = "openai"
      · have hor : pyLower (pyStripStr p) = "openai" ∨ pyLower (pyStripStr p) = "custom" :=
          Or.inl ho
        rw [if_pos hor]
        exact ho
      · have hnor : ¬ (pyLower (pyStripStr p) = "openai" ∨ pyLower (pyStripStr p) = "custom") :=
          fun h => h.elim ho hc
        rw [if_neg hnor]

theorem normalizeCfg_mode (d : AppDefaults) (m2 p2 mo2 k2 b2 : String) :
    (normalizeCfg d m2 p2 mo2 k2 b2).embedding_mode = normMode m2 := by
  unfold normalizeCfg
  by_cases h : normMode m2 = "local"
  · rw [if_pos h]
  · rw [if_neg h]

theorem normalizeCfg_provider (d : AppDefaults) (m2 p2 mo2 k2 b2 : String) :
    (normalizeCfg d m2 p2 mo2 k2 b2).embedding_provider = normProvider p2 := by
  unfold normalizeCfg
  by_cases h : normMode m2 = "local"
  · rw [if_pos h]
  · rw [if_neg h]

theorem normalizeCfg_spec (d : AppDefaults) (m2 p2 mo2 k2 b2 : String) :
    ((normalizeCfg d m2 p2 mo2 k2 b2).embedding_mode = "local" ∨
     (normalizeCfg d m2 p2 mo2 k2 b2).embedding_mode = "api") ∧
    ((normalizeCfg d m2 p2 mo2 k2 b2).embedding_provider = "openai" ∨
     (normalizeCfg d m2 p2 mo2 k2 b2).embedding_provider = "custom") ∧
    ((normalizeCfg d m2 p2 mo2 k2 b2).embedding_mode = "local" →
     (normalizeCfg d m2 p2 mo2 k2 b2).embedding_model = localModelName d) := by
  refine ⟨?_, ?_, ?_⟩
  · by_cases hmode : normMode m2 = "local"
    · unfold normalizeCfg
      rw [if_pos hmode]
      exact Or.inl hmode
    · unfold normalizeCfg
      rw [if_neg hmode]
      exact Or.inr ((normMode_cases m2).resolve_left hmode)
  · by_cases hmode : normMode m2 = "local"
    · unfold normalizeCfg
      rw [if_pos hmode]
      exact normProvider_cases p2
    · unfold normalizeCfg
      rw [if_neg hmode]
      exact normProvider_cases p2
  · intro h
    by_cases hmode : normMode m2 = "local"
    · unfold normalizeCfg
      rw [if_pos hmode]
    · unfold normalizeCfg at h
      rw [if_neg hmode] at h
      exact absurd h hmode

/-- C3: for every combination of process defaults, stored user settings and
per-call override, `_resolve_embedding_config` returns a complete normalized
configuration (it is a total function, so it cannot raise): the mode is
always `local` or `api`, the provider is always `openai` or `custom`, under
local mode the model is forced to the process-wide local model name, and the
coercion targets are pinned by two equations: the resolved mode is `api`
exactly when the merged mode value is non-blank and strips/lowers to `api` —
so a blank or unknown mode coerces to `local` — and the resolved provider is
`custom` exactly when the merged provider value is non-blank and
strips/lowers to `custom` — so an unknown provider coerces to `openai`. -/
theorem c3_resolve_normalized (d : AppDefaults) (row : Option UserSettingsRow)
    (ov : Option OverrideCfg) :
    ((resolveEmbeddingConfig d row ov).embedding_mode = "local" ∨
     (resolveEmbeddingConfig d row ov).embedding_mode = "api") ∧
    ((resolveEmbeddingConfig d row ov).embedding_provider = "openai" ∨
     (resolveEmbeddingConfig d row ov).embedding_provider = "custom") ∧
    ((resolveEmbeddingConfig d row ov).embedding_mode = "local" →
     (resolveEmbeddingConfig d row ov).embedding_model = localModelName d) ∧
    ((resolveEmbeddingConfig d row ov).embedding_mode =
      if ¬ (mergedKey row ov (fun u => u.embedding_mode) (fun o => o.embedding_mode)
              (pyOr d.default_embedding_mode "local")).isEmpty = true ∧
         pyLower (pyStripStr (mergedKey row ov (fun u => u.embedding_mode)
              (fun o => o.embedding_mode) (pyOr d.default_embedding_mode "local"))) = "api"
      then "api" else "local") ∧
    ((resolveEmbeddingConfig d row ov).embedding_provider =
      if ¬ (mergedKey row ov (fun u => u.embedding_provider) (fun o => o.embedding_provider)
              (pyOr d.default_embedding_provider "openai")).isEmpty = true ∧
         pyLower (pyStripStr (mergedKey row ov (fun u => u.embedding_provider)
              (fun o => o.embedding_provider) (pyOr d.default_embedding_provider "openai"))) =
           "custom"
      then "custom" else "openai") := by
  refine ⟨(normalizeCfg_spec d _ _ _ _ _).1, (normalizeCfg_spec d _ _ _ _ _).2.1,
    (normalizeCfg_spec d _ _ _ _ _).2.2, ?_, ?_⟩
  · unfold resolveEmbeddingConfig
    rw [normalizeCfg_mode, normMode_eq]
  · unfold resolveEmbeddingConfig
    rw [normalizeCfg_provider, normProvider_eq]

/-- Witness for C3 at a concrete blank/unknown configuration: the mode
`"weird"` coerces to `local` and the provider `"bad"` coerces to `openai`. -/
theorem c3_resolve_normalized_witness :
    ((resolveEmbeddingConfig ⟨some "weird", some "bad", some "m", none, none⟩ none none).embedding_mode = "local" ∨
     (resolveEmbeddingConfig ⟨some "weird", some "bad", some "m", none, none⟩ none none).embedding_mode = "api") ∧
    ((resolveEmbeddingConfig ⟨some "weird", some "bad", some "m", none, none⟩ none none).embedding_provider = "openai" ∨
     (resolveEmbeddingConfig ⟨some "weird", some "bad", some "m", none, none⟩ none none).embedding_provider = "custom") ∧
    ((resolveEmbeddingConfig ⟨some "weird", some "bad", some "m", none, none⟩ none none).embedding_mode = "local" →
     (resolveEmbeddingConfig ⟨some "weird", some "bad", some "m", none, none⟩ none none).embedding_model =
       localModelName ⟨some "weird", some "bad", some "m", none, none⟩) ∧
    (resolveEmbeddingConfig ⟨some "weird", some "bad", some "m", none, none⟩ none none).embedding_mode = "local" ∧
    (resolveEmbeddingConfig ⟨some "weird", some "bad", some "m", none, none⟩ none none).embedding_provider = "openai" :=
  ⟨(c3_resolve_normalized ⟨some "weird", some "bad", some "m", none, none⟩ none none).1,
   (c3_resolve_normalized ⟨some "weird", some "bad", some "m", none, none⟩ none none).2.1,
   (c3_resolve_normalized ⟨some "weird", some "bad", some "m", none, none⟩ none none).2.2.1,
   ((c3_resolve_normalized ⟨some "weird", some "bad", some "m", none, none⟩ none none).2.2.2.1).trans
     (by decide),
   ((c3_resolve_normalized ⟨some "weird", some "bad", some "m", none, none⟩ none none).2.2.2.2).trans
     (by decide)⟩

/- ### C4: collection-name derivation -/

/-- C4 (amended): collection naming is a pure function of
(user, project, config), hence deterministic.  Outside API mode the name
ignores the embedding configuration entirely, so changing the model under
local mode keeps the name.  Under API mode, two configurations yield the same
name exactly when the 8-hex-character truncated SHA-256 of their
`provider:model` strings coincide — so changing the model usually, but not
always, changes the name. -/
theorem c4_collection_name (u p : String) (c1 c2 : EmbCfg) :
    (c1.embedding_mode ≠ "api" → c2.embedding_mode ≠ "api" →
      buildCollectionName u p c1 = buildCollectionName u p c2) ∧
    (c1.embedding_mode = "api" → c2.embedding_mode = "api" →
      (buildCollectionName u p c1 = buildCollectionName u p c2 ↔
       sha256Hex8 (c1.embedding_provider ++ ":" ++ c1.embedding_model) =
       sha256Hex8 (c2.embedding_provider ++ ":" ++ c2.embedding_model))) := by
  constructor
  · intro h1 h2
    simp [buildCollectionName, h1, h2]
  · intro h1 h2
    simp only [buildCollectionName, h1, h2, ne_eq, not_true_eq_false, if_false]
    constructor
    · intro h
      have hd := congrArg String.data h
      simp only [String.data_append] at hd
      have := List.append_cancel_left hd
      exact String.ext this
    · intro h
      rw [h]

set_option maxRecDepth 100000 in
/-- C4 counterexample to the claim as stated: two distinct API models whose
truncated hashes collide produce the same collection name. -/
theorem c4_collection_name_counterexample :
    (EmbCfg.mk "api" "openai" "m20340" "k" "b").embedding_model ≠
      (EmbCfg.mk "api" "openai" "m21580" "k" "b").embedding_model ∧
    buildCollectionName "u" "p" (EmbCfg.mk "api" "openai" "m20340" "k" "b") =
      buildCollectionName "u" "p" (EmbCfg.mk "api" "openai" "m21580" "k" "b") := by
  constructor
  · decide
  · decide

/-- Witness for C4 at concrete local-mode configurations with different models. -/
theorem c4_collection_name_witness :
    buildCollectionName "u" "p" (EmbCfg.mk "local" "openai" "modelA" "" "") =
      buildCollectionName "u" "p" (EmbCfg.mk "local" "openai" "modelB" "" "") :=
  (c4_collection_name "u" "p" (EmbCfg.mk "local" "openai" "modelA" "" "")
    (EmbCfg.mk "local" "openai" "modelB" "" "")).1 (by decide) (by decide)

/- ### C10: update_memory -/

/-- C10: `update_memory` with neither new content nor new metadata returns
False and issues no store update; it returns True only when at least one of
them is supplied and the underlying update succeeds; and when one is
supplied and every step succeeds it issues the update and returns True.
The result pair is (return value, whether `collection.update` was called). -/
theorem c10_update_memory (d : AppDefaults) (row : Option UserSettingsRow)
    (ov : Option OverrideCfg) (content : Option String) (md : List (String × MetaVal))
    (respData : Option (List ApiItem)) (localResult : Except String (List (List Rat)))
    (getColl : Except String Unit) (updateResult : Except String Unit) :
    (truthy content = false → md = [] →
      updateMemory d row ov content md respData localResult getColl updateResult =
        (false, false)) ∧
    ((updateMemory d row ov content md respData localResult getColl updateResult).1 = true →
      (truthy content = true ∨ md ≠ []) ∧ updateResult = Except.ok () ∧
      (updateMemory d row ov content md respData localResult getColl updateResult).2 = true) ∧
    ((truthy content = true ∨ md ≠ []) → getColl = Except.ok () →
      (truthy content = true → ∃ v vs,
        embedTexts (resolveEmbeddingConfig d row ov) [content.getD ""] respData localResult =
          Except.ok (v :: vs)) →
      updateResult = Except.ok () →
      updateMemory d row ov content md respData localResult getColl updateResult =
        (true, true)) := by
  refine ⟨?_, ?_, ?_⟩
  · intro hc hm
    subst hm
    unfold updateMemory
    cases getColl with
    | error e => rfl
    | ok u =>
      cases u
      simp [hc]
  · intro h1
    unfold updateMemory at h1
    cases hg : getColl with
    | error e => rw [hg] at h1; simp at h1
    | ok u =>
      cases u
      rw [hg] at h1
      dsimp only at h1
      by_cases hc : truthy content = true
      · rw [if_pos hc] at h1
        cases he : embedTexts (resolveEmbeddingConfig d row ov) [content.getD ""] respData
            localResult with
        | error e2 => rw [he] at h1; simp at h1
        | ok embs =>
          rw [he] at h1
          cases embs with
          | nil => simp at h1
          | cons v vs =>
            dsimp only [List.head?] at h1
            rw [if_pos (Or.inl hc)] at h1
            cases hu : updateResult with
            | error e3 => rw [hu] at h1; simp at h1
            | ok u2 =>
              cases u2
              refine ⟨Or.inl hc, rfl, ?_⟩
              unfold updateMemory
              dsimp only
              rw [if_pos hc, he]
              dsimp only [List.head?]
              rw [if_pos (Or.inl hc)]
      · rw [if_neg hc] at h1
        by_cases hm : md.isEmpty = true
        · rw [if_neg (by simp [hc, hm])] at h1
          simp at h1
        · rw [if_pos (Or.inr (by simpa using hm))] at h1
          cases hu : updateResult with
          | error e3 => rw [hu] at h1; simp at h1
          | ok u2 =>
            cases u2
            refine ⟨Or.inr (by simpa [List.isEmpty_iff] using hm), rfl, ?_⟩
            unfold updateMemory
            dsimp only
            rw [if_neg hc, if_pos (Or.inr (by simpa using hm))]
  · intro hsup hg hembed hu
    unfold updateMemory
    rw [hg]
    dsimp only
    by_cases hc : truthy content = true
    · obtain ⟨v, vs, he⟩ := hembed hc
      rw [if_pos hc, he]
      dsimp only [List.head?]
      rw [if_pos (Or.inl hc), hu]
    · have hmd : md ≠ [] := by
        rcases hsup with h | h
        · exact absurd h hc
        · exact h
      rw [if_neg hc, if_pos (Or.inr (by simpa [List.isEmpty_iff] using hmd)), hu]

/-- Witness for C10: no-op call returns (false, false); a content update with
all steps succeeding returns (true, true). -/
theorem c10_update_memory_witness :
    updateMemory (AppDefaults.mk none none none none none) none none none []
      none (Except.ok [[(1 : Rat)]]) (Except.ok ()) (Except.ok ()) = (false, false) ∧
    updateMemory (AppDefaults.mk none none none none none) none none (some "new text") []
      none (Except.ok [[(1 : Rat)]]) (Except.ok ()) (Except.ok ()) = (true, true) :=
  ⟨(c10_update_memory (AppDefaults.mk none none none none none) none none none []
      none (Except.ok [[(1 : Rat)]]) (Except.ok ()) (Except.ok ())).1 (by decide) rfl,
   (c10_update_memory (AppDefaults.mk none none none none none) none none (some "new text") []
      none (Except.ok [[(1 : Rat)]]) (Except.ok ()) (Except.ok ())).2.2
     (Or.inl (by decide)) rfl
     (fun _ => ⟨[(1 : Rat)], [], rfl⟩) rfl⟩

/- ### C7: chunking degeneracy and chunk non-emptiness -/

theorem splitLoop_ne_nil (cleaned : List Char) (cs step : Nat) :
    ∀ fuel start chunk, chunk ∈ splitLoop cleaned cs step fuel start → chunk ≠ [] := by
  intro fuel
  induction fuel with
  | zero =>
    intro start chunk h
    simp [splitLoop] at h
  | succ n ih =>
    intro start chunk h
    unfold splitLoop at h
    split at h
    case isTrue hlt =>
      dsimp only at h
      split at h
      case isTrue hpe =>
        split at h
        · simp at h
        · exact ih _ _ h
      case isFalse hpe =>
        rcases List.mem_cons.mp h with rfl | h2
        · simpa [List.isEmpty_iff] using hpe
        · split at h2
          · simp at h2
          · exact ih _ _ h2
    case isFalse => simp at h

/-- C7 (amended): for every input text whose cleaned form is NON-EMPTY and of
length at most the chunk size, chunking returns exactly one chunk equal to
the cleaned text; and every chunk ever returned is non-empty.  (The original
claim fails only for texts whose cleaned form is empty, which yield zero
chunks.) -/
theorem c7_single_chunk (text : List Char) (cs ov : Nat) :
    (pyClean text ≠ [] → (pyClean text).length ≤ cs →
      splitTextForEmbedding text cs ov = [pyClean text]) ∧
    (∀ chunk ∈ splitTextForEmbedding text cs ov, chunk ≠ []) := by
  constructor
  · intro hne hlen
    unfold splitTextForEmbedding
    rw [if_neg (by simpa [List.isEmpty_iff] using hne), if_pos hlen]
  · intro chunk hmem
    unfold splitTextForEmbedding at hmem
    dsimp only at hmem
    split at hmem
    case isTrue h => simp at hmem
    case isFalse h =>
      split at hmem
      case isTrue h2 =>
        rw [List.mem_singleton.mp hmem]
        simpa [List.isEmpty_iff] using h
      case isFalse h2 =>
        exact splitLoop_ne_nil _ _ _ _ _ _ hmem

/-- C7 counterexample to the claim as stated: the empty text has an empty
cleaned form (of length at most the chunk size) yet yields zero chunks, not
one chunk equal to the cleaned text. -/
theorem c7_counterexample :
    pyClean ([] : List Char) = [] ∧
    (pyClean ([] : List Char)).length ≤ 1800 ∧
    splitTextForEmbedding [] 1800 150 = [] ∧
    splitTextForEmbedding [] 1800 150 ≠ [pyClean ([] : List Char)] := by
  refine ⟨rfl, by decide, rfl, by decide⟩

/-- Witness for C7 on a concrete short text. -/
theorem c7_single_chunk_witness :
    splitTextForEmbedding ("hello   world".data) 1800 150 = [pyClean ("hello   world".data)] :=
  (c7_single_chunk ("hello   world".data) 1800 150).1 (by decide) (by decide)

/- ### C8: CJK numeral conversion and chapter-number fallback -/

theorem cnChar_none {c : Char} (h : isCnNumChar c = false) :
    cnDigit c = none ∧ cnUnit c = none := by
  unfold isCnNumChar at h
  simp only [decide_eq_false_iff_not, not_or, Bool.or_eq_false_iff] at h
  constructor
  · cases hd : cnDigit c with
    | none => rfl
    | some dv => rw [hd] at h; simp at h
  · cases hu : cnUnit c with
    | none => rfl
    | some uv => rw [hu] at h; simp at h

theorem cnLoop_none (l : List Char) :
    ∀ t s n, (∃ c ∈ l, isCnNumChar c = false) → cnLoop l t s n = none := by
  induction l with
  | nil =>
    rintro t s n ⟨c, hc, _⟩
    simp at hc
  | cons a rest ih =>
    rintro t s n ⟨c, hc, hbad⟩
    rcases List.mem_cons.mp hc with rfl | hcr
    · obtain ⟨h1, h2⟩ := cnChar_none hbad
      unfold cnLoop
      rw [h1, h2]
    · unfold cnLoop
      cases hd : cnDigit a with
      | some dv => exact ih _ _ _ ⟨c, hcr, hbad⟩
      | none =>
        cases hu : cnUnit a with
        | none => rfl
        | some u =>
          dsimp only
          split
          · exact ih _ _ _ ⟨c, hcr, hbad⟩
          · exact ih _ _ _ ⟨c, hcr, hbad⟩

theorem firstDigitRun_none (l : List Char) (h : ∀ c ∈ l, c.isDigit = false) :
    firstDigitRun l = none := by
  induction l with
  | nil => rfl
  | cons a rest ih =>
    unfold firstDigitRun
    rw [if_neg (by simp [h a (List.mem_cons_self a rest)])]
    exact ih (fun c hc => h c (List.mem_cons_of_mem a hc))

theorem firstCnRun_none (l : List Char) (h : ∀ c ∈ l, isCnNumChar c = false) :
    firstCnRun l = none := by
  induction l with
  | nil => rfl
  | cons a rest ih =>
    unfold firstCnRun
    rw [if_neg (by simp [h a (List.mem_cons_self a rest)])]
    exact ih (fun c hc => h c (List.mem_cons_of_mem a hc))

/-- C8: CJK numeral conversion maps 三十二 to 32, 一百零五 to 105 and 两千 to
2000 (and, via sectional accumulation, 三万二千 to 32000); a sequence
containing a character that is neither a CJK numeral nor a digit converts to
no value (as does 零, whose value 0 is filtered out); and chapter-number
extraction falls back to the positional index when the title has no digits
and no CJK numeral characters. -/
theorem c8_cjk_numerals :
    (chineseToInt "三十二".data = some 32) ∧
    (chineseToInt "一百零五".data = some 105) ∧
    (chineseToInt "两千".data = some 2000) ∧
    (chineseToInt "三万二千".data = some 32000) ∧
    (chineseToInt "零".data = none) ∧
    (extractChapterNumber "第零章".data 7 = 7) ∧
    (∀ s : List Char,
      (∃ c ∈ pyStrip s, isCnNumChar c = false ∧ c.isDigit = false) →
      chineseToInt s = none) ∧
    (∀ (title : List Char) (idx : Nat),
      (∀ c ∈ title, c.isDigit = false) → (∀ c ∈ title, isCnNumChar c = false) →
      extractChapterNumber title idx = idx) := by
  refine ⟨by decide, by decide, by decide, by decide, by decide, by decide, ?_, ?_⟩
  · rintro s ⟨c, hc, hbad, hdig⟩
    unfold chineseToInt
    have hne : pyStrip s ≠ [] := by
      intro hnil
      rw [hnil] at hc
      simp at hc
    rw [if_neg (by simpa [List.isEmpty_iff] using hne)]
    have hall : ¬ ((pyStrip s).all Char.isDigit = true) := by
      intro hall
      have := List.all_eq_true.mp hall c hc
      rw [hdig] at this
      exact Bool.false_ne_true this
    rw [if_neg hall, cnLoop_none _ _ _ _ ⟨c, hc, hbad⟩]
  · intro title idx hdig hcn
    unfold extractChapterNumber
    rw [firstDigitRun_none title hdig, firstCnRun_none title hcn]

/-- Witness for C8 on concrete invalid input and a digit-free title. -/
theorem c8_cjk_numerals_witness :
    chineseToInt "abc".data = none ∧ extractChapterNumber "序章".data 5 = 5 :=
  ⟨c8_cjk_numerals.2.2.2.2.2.2.1 "abc".data ⟨'a', by decide, by decide, by decide⟩,
   c8_cjk_numerals.2.2.2.2.2.2.2 "序章".data 5 (by decide) (by decide)⟩

/- ### C1: API embedding order preservation and count checking -/

/-- C1: with a valid API configuration, for every non-empty list of input
texts, when the remote response carries exactly one embedding per input
tagged with its index — in any order — `_embed_texts_with_api` returns the
embeddings re-sorted into the caller's input order, vector i corresponding
to input i; and whenever the response carries fewer embeddings than inputs
it fails with an error instead of padding or truncating. -/
theorem c1_embed_api (texts : List String) (cfg : EmbCfg)
    (hkey : cfg.embedding_api_key.isEmpty = false)
    (hbase : cfg.embedding_api_base_url.isEmpty = false)
    (hne : texts ≠ []) :
    (∀ (e : Nat → List Rat) (items : List ApiItem),
      items.Perm (canonItems e texts.length) →
      embedTextsWithApi texts cfg (some items) =
        Except.ok ((List.range texts.length).map e)) ∧
    (∀ items : List ApiItem,
      (items.filterMap (fun it => it.embedding)).length < texts.length →
      ∃ msg, embedTextsWithApi texts cfg (some items) = Except.error msg) := by
  have hn : 0 < texts.length := List.length_pos.mpr hne
  constructor
  · intro e items hperm
    have hlen : items.length = texts.length := by
      rw [hperm.length_eq, canonItems, List.length_map, List.length_range]
    have hitems_ne : items.isEmpty = false := by
      cases items with
      | nil => simp at hlen; omega
      | cons a t => rfl
    have hsorted : items.insertionSort itemLE = canonItems e texts.length := by
      apply List.eq_of_perm_of_sorted (r := itemLT)
      · exact (List.perm_insertionSort itemLE items).trans hperm
      · have h1 : List.Sorted itemLE (items.insertionSort itemLE) :=
          List.sorted_insertionSort itemLE items
        have hpm : ((items.insertionSort itemLE).map sortKey).Perm
            ((canonItems e texts.length).map sortKey) :=
          ((List.perm_insertionSort itemLE items).trans hperm).map sortKey
        have h2 : ((items.insertionSort itemLE).map sortKey).Nodup := by
          apply hpm.nodup_iff.mpr
          rw [canonItems, List.map_map]
          refine List.Nodup.map ?_ (List.nodup_range _)
          intro a b hab
          have hab2 : (a : Int) = (b : Int) := hab
          exact_mod_cast hab2
        have h3 : (items.insertionSort itemLE).Pairwise
            (fun a b => sortKey a ≠ sortKey b) := List.pairwise_map.mp h2
        exact (h1.and h3).imp (fun hab => lt_of_le_of_ne hab.1 hab.2)
      · rw [canonItems]
        apply List.pairwise_map.mpr
        refine (List.pairwise_lt_range _).imp ?_
        intro a b hab
        show (a : Int) < (b : Int)
        exact_mod_cast hab
    have hfm : ((canonItems e texts.length).filterMap
          (fun it => it.embedding)) = (List.range texts.length).map e := by
      rw [canonItems, List.filterMap_map]
      show (List.range texts.length).filterMap (fun j => some (e j)) =
        (List.range texts.length).map e
      exact List.filterMap_eq_map e ▸ rfl
    unfold embedTextsWithApi
    rw [if_neg (by simp [hkey]), if_neg (by simp [hbase])]
    dsimp only
    rw [if_neg (by simp [hitems_ne]), hsorted, hfm]
    rw [if_neg (by simp)]
  · intro items hcount
    unfold embedTextsWithApi
    rw [if_neg (by simp [hkey]), if_neg (by simp [hbase])]
    cases items with
    | nil => exact ⟨_, rfl⟩
    | cons a t =>
      dsimp only
      have hfmlen : (((a :: t).insertionSort itemLE).filterMap
          (fun it => it.embedding)).length =
          ((a :: t).filterMap (fun it => it.embedding)).length :=
        ((List.perm_insertionSort itemLE (a :: t)).filterMap _).length_eq
      rw [if_neg (by simp), if_pos (by rw [hfmlen]; omega)]
      exact ⟨_, rfl⟩

/-- Witness for C1: two inputs, a response delivered out of order, and a
short response; the first is re-sorted, the second is rejected. -/
theorem c1_embed_api_witness :
    embedTextsWithApi ["alpha", "beta"] (EmbCfg.mk "api" "openai" "m" "key" "base")
      (some [ApiItem.mk (some 1) (some [(1 : Rat)]), ApiItem.mk (some 0) (some [(0 : Rat)])]) =
      Except.ok ((List.range (["alpha", "beta"] : List String).length).map
        (fun (j : Nat) => [(j : Rat)])) ∧
    ∃ msg, embedTextsWithApi ["alpha", "beta"] (EmbCfg.mk "api" "openai" "m" "key" "base")
      (some [ApiItem.mk (some 0) (some [(0 : Rat)])]) = Except.error msg :=
  ⟨(c1_embed_api ["alpha", "beta"] (EmbCfg.mk "api" "openai" "m" "key" "base")
      rfl rfl (by decide)).1 (fun (j : Nat) => [(j : Rat)])
      [ApiItem.mk (some 1) (some [(1 : Rat)]), ApiItem.mk (some 0) (some [(0 : Rat)])]
      (by decide),
   (c1_embed_api ["alpha", "beta"] (EmbCfg.mk "api" "openai" "m" "key" "base")
      rfl rfl (by decide)).2 [ApiItem.mk (some 0) (some [(0 : Rat)])] (by decide)⟩

/- ### C5: failure propagation policy -/

/-- C5 (amended): `add_memory`, `batch_add_memories` and `search_memories`
wrap their whole bodies in `try/except Exception`, so every failure —
including configuration errors (missing API key/base URL) and embedding
count-mismatch errors — is recovered to False/0/[] at those operations;
such errors propagate only out of the embedding helper
`_embed_texts_with_api` itself, not to the callers of add/search. -/
theorem c5_failure_recovery (d : AppDefaults) (row : Option UserSettingsRow)
    (ov : Option OverrideCfg) (content q : String) (mems : List MemInput)
    (types : List String) (imp : Rat) (cr : Option (Int × Int))
    (respData : Option (List ApiItem)) (localResult : Except String (List (List Rat)))
    (getColl storeAdd : Except String Unit)
    (storeQuery : Option WhereFilter → Except String (List RawRow)) :
    (∃ b, addMemory d row ov content respData localResult getColl storeAdd = Except.ok b) ∧
    (∃ n, batchAddMemories d row ov mems respData localResult getColl storeAdd = Except.ok n) ∧
    (∃ l, searchMemories d row ov q types imp cr respData localResult getColl storeQuery =
      Except.ok l) ∧
    (∀ e, embedTexts (resolveEmbeddingConfig d row ov) [content] respData localResult =
        Except.error e →
      addMemory d row ov content respData localResult getColl storeAdd = Except.ok false) ∧
    (∀ e, embedTexts (resolveEmbeddingConfig d row ov) [q] respData localResult =
        Except.error e →
      searchMemories d row ov q types imp cr respData localResult getColl storeQuery =
        Except.ok []) ∧
    ((resolveEmbeddingConfig d row ov).embedding_api_key = "" →
      embedTextsWithApi [content] (resolveEmbeddingConfig d row ov) respData =
        Except.error "Embedding API mode enabled but embedding_api_key missing") := by
  refine ⟨?_, ?_, ?_, ?_, ?_, ?_⟩
  · unfold addMemory
    dsimp only
    cases getColl with
    | error e => exact ⟨false, rfl⟩
    | ok u =>
      cases embedTexts (resolveEmbeddingConfig d row ov) [content] respData localResult with
      | error e => exact ⟨false, rfl⟩
      | ok embs =>
        cases embs with
        | nil => exact ⟨false, rfl⟩
        | cons v vs =>
          cases storeAdd with
          | error e => exact ⟨false, rfl⟩
          | ok u2 => exact ⟨true, rfl⟩
  · unfold batchAddMemories
    by_cases hm : mems.isEmpty = true
    · rw [if_pos hm]
      exact ⟨0, rfl⟩
    · rw [if_neg hm]
      dsimp only
      cases getColl with
      | error e => exact ⟨0, rfl⟩
      | ok u =>
        cases embedTexts (resolveEmbeddingConfig d row ov) (mems.map (fun m => m.content))
            respData localResult with
        | error e => exact ⟨0, rfl⟩
        | ok embs =>
          cases storeAdd with
          | error e => exact ⟨0, rfl⟩
          | ok u2 => exact ⟨mems.length, rfl⟩
  · unfold searchMemories
    dsimp only
    cases getColl with
    | error e => exact ⟨[], rfl⟩
    | ok u =>
      cases embedTexts (resolveEmbeddingConfig d row ov) [q] respData localResult with
      | error e => exact ⟨[], rfl⟩
      | ok embs =>
        cases embs with
        | nil => exact ⟨[], rfl⟩
        | cons v vs =>
          cases storeQuery (buildWhereFilter types imp cr) with
          | error e => exact ⟨[], rfl⟩
          | ok rows => exact ⟨_, rfl⟩
  · intro e he
    unfold addMemory
    dsimp only
    cases hg : getColl with
    | error e2 => rfl
    | ok u => rw [he]
  · intro e he
    unfold searchMemories
    dsimp only
    cases hg : getColl with
    | error e2 => rfl
    | ok u => rw [he]
  · intro hk
    unfold embedTextsWithApi
    rw [if_pos (by rw [hk]; rfl)]

/-- C5 counterexample to the claim as stated: with API mode selected and no
API key configured, the embedding helper raises a configuration error, yet
`add_memory` swallows it and returns False instead of propagating. -/
theorem c5_counterexample :
    embedTextsWithApi ["x"]
      (resolveEmbeddingConfig (AppDefaults.mk (some "api") none none none none) none none)
      none =
      Except.error "Embedding API mode enabled but embedding_api_key missing" ∧
    addMemory (AppDefaults.mk (some "api") none none none none) none none "x" none
      (Except.ok []) (Except.ok ()) (Except.ok ()) = Except.ok false := by
  exact ⟨rfl, rfl⟩

/-- Witness for C5: a failing local embedding is recovered to False by
`add_memory`, and the configuration error does surface from the helper. -/
theorem c5_failure_recovery_witness :
    addMemory (AppDefaults.mk none none none none none) none none "x" none
      (Except.error "boom") (Except.ok ()) (Except.ok ()) = Except.ok false ∧
    embedTextsWithApi ["x"]
      (resolveEmbeddingConfig (AppDefaults.mk (some "api") none none none none) none none)
      none =
      Except.error "Embedding API mode enabled but embedding_api_key missing" :=
  ⟨(c5_failure_recovery (AppDefaults.mk none none none none none) none none "x" "q" [] []
      0 none none (Except.error "boom") (Except.ok ()) (Except.ok ())
      (fun _ => Except.ok [])).2.2.2.1 "boom" rfl,
   (c5_failure_recovery (AppDefaults.mk (some "api") none none none none) none none "x" "q"
      [] [] 0 none none (Except.ok []) (Except.ok ()) (Except.ok ())
      (fun _ => Except.ok [])).2.2.2.2.2 rfl⟩

/- ### C6: chunking a 4000-character cleaned text -/

theorem length_dropWhile_le (p : Char → Bool) (l : List Char) :
    (l.dropWhile p).length ≤ l.length := by
  induction l with
  | nil => simp
  | cons a t ih =>
    rw [List.dropWhile_cons]
    split
    · exact le_trans ih (Nat.le_succ _)
    · exact le_refl _

theorem pyStrip_length_le (l : List Char) : (pyStrip l).length ≤ l.length := by
  unfold pyStrip
  calc ((l.dropWhile isPySpace).reverse.dropWhile isPySpace).reverse.length
      = ((l.dropWhile isPySpace).reverse.dropWhile isPySpace).length :=
        List.length_reverse _
    _ ≤ (l.dropWhile isPySpace).reverse.length := length_dropWhile_le _ _
    _ = (l.dropWhile isPySpace).length := List.length_reverse _
    _ ≤ l.length := length_dropWhile_le _ _

theorem mem_dropWhile_of_neg (p : Char → Bool) {c : Char} {l : List Char}
    (hc : c ∈ l) (hp : p c = false) : c ∈ l.dropWhile p := by
  induction l with
  | nil => simp at hc
  | cons a t ih =>
    rw [List.dropWhile_cons]
    rcases List.mem_cons.mp hc with rfl | hct
    · simp [hp]
    · split
      · exact ih hct
      · exact List.mem_cons_of_mem a hct

theorem pyStrip_ne_nil_of_mem {c : Char} {l : List Char} (hc : c ∈ l)
    (hns : isPySpace c = false) : pyStrip l ≠ [] := by
  intro hnil
  unfold pyStrip at hnil
  rw [List.reverse_eq_nil_iff] at hnil
  have h2 := List.dropWhile_eq_nil_iff.mp hnil
  have hcmem : c ∈ (l.dropWhile isPySpace).reverse :=
    List.mem_reverse.mpr (mem_dropWhile_of_neg _ hc hns)
  have h3 := h2 c hcmem
  rw [hns] at h3
  exact Bool.false_ne_true h3

theorem pySplitWsF_words : ∀ (fuel : Nat) (l : List Char) (w : List Char),
    w ∈ pySplitWsF fuel l → w ≠ [] ∧ ∀ c ∈ w, isPySpace c = false := by
  intro fuel
  induction fuel with
  | zero =>
    intro l w h
    simp [pySplitWsF] at h
  | succ n ih =>
    intro l w h
    cases l with
    | nil => simp [pySplitWsF] at h
    | cons c rest =>
      unfold pySplitWsF at h
      split at h
      case isTrue hsp => exact ih rest w h
      case isFalse hsp =>
        rcases List.mem_cons.mp h with rfl | h2
        · refine ⟨by simp, ?_⟩
          intro x hx
          rcases List.mem_cons.mp hx with rfl | hxt
          · simpa using hsp
          · simpa using List.mem_takeWhile_imp hxt
        · exact ih _ w h2

theorem chain_of_all_nonspace {l : List Char} (h : ∀ c ∈ l, isPySpace c = false) :
    l.Chain' chR := by
  induction l with
  | nil => exact List.chain'_nil
  | cons a t ih =>
    rw [List.chain'_cons']
    refine ⟨?_, ih (fun c hc => h c (List.mem_cons_of_mem a hc))⟩
    intro x _
    exact Or.inl (h a (List.mem_cons_self a t))

theorem joinWords_cons_head (c : Char) (w : List Char) (ws : List (List Char)) :
    ∃ t, joinWords ((c :: w) :: ws) = c :: t := by
  cases ws with
  | nil => exact ⟨w, rfl⟩
  | cons w2 ws2 => exact ⟨w ++ ' ' :: joinWords (w2 :: ws2), rfl⟩

theorem joinWords_chain : ∀ ws : List (List Char),
    (∀ w ∈ ws, w ≠ [] ∧ ∀ c ∈ w, isPySpace c = false) → (joinWords ws).Chain' chR := by
  intro ws
  induction ws with
  | nil => intro _; exact List.chain'_nil
  | cons w ws ih =>
    intro h
    obtain ⟨hw_ne, hw_ns⟩ := h w (List.mem_cons_self w ws)
    cases ws with
    | nil => exact chain_of_all_nonspace hw_ns
    | cons w2 ws2 =>
      have hrest : (joinWords (w2 :: ws2)).Chain' chR :=
        ih (fun x hx => h x (List.mem_cons_of_mem w hx))
      show ((w ++ ' ' :: joinWords (w2 :: ws2)).Chain' chR)
      rw [List.chain'_append]
      refine ⟨chain_of_all_nonspace hw_ns, ?_, ?_⟩
      · rw [List.chain'_cons']
        refine ⟨?_, hrest⟩
        intro y hy
        obtain ⟨hw2ne, hw2ns⟩ := h w2 (List.mem_cons_of_mem w (List.mem_cons_self w2 ws2))
        cases w2 with
        | nil => exact absurd rfl hw2ne
        | cons c2 t2 =>
          obtain ⟨t, ht⟩ := joinWords_cons_head c2 t2 ws2
          rw [ht] at hy
          simp only [List.head?_cons, Option.mem_def, Option.some.injEq] at hy
          subst hy
          exact Or.inr (hw2ns c2 (List.mem_cons_self c2 t2))
      · intro x hx y _
        exact Or.inl (hw_ns x (List.mem_of_mem_getLast? hx))

theorem chain_drop {l : List Char} (h : l.Chain' chR) (n : Nat) :
    (l.drop n).Chain' chR := by
  induction n with
  | zero => simpa using h
  | succ k ih =>
    have hd : l.drop (k + 1) = (l.drop k).tail := by
      rw [← List.drop_one, List.drop_drop]
    rw [hd]
    exact ih.tail

theorem window_has_nonspace {l : List Char} (h : l.Chain' chR) (start k : Nat)
    (hs : start + 2 ≤ l.length) (hk : 2 ≤ k) :
    ∃ c ∈ (l.drop start).take k, isPySpace c = false := by
  have hlen : 2 ≤ (l.drop start).length := by
    rw [List.length_drop]
    omega
  obtain ⟨c0, rest0, h0⟩ : ∃ c0 rest0, l.drop start = c0 :: rest0 := by
    cases hd : l.drop start with
    | nil => rw [hd] at hlen; simp at hlen
    | cons a t => exact ⟨a, t, rfl⟩
  obtain ⟨c1, rest1, h1⟩ : ∃ c1 rest1, rest0 = c1 :: rest1 := by
    cases hr : rest0 with
    | nil => rw [h0, hr] at hlen; simp at hlen
    | cons a t => exact ⟨a, t, rfl⟩
  have hch := chain_drop h start
  rw [h0, h1] at hch
  have hR : chR c0 c1 := (List.chain'_cons.mp hch).1
  obtain ⟨k2, rfl⟩ : ∃ k2, k = k2 + 2 := ⟨k - 2, by omega⟩
  rw [h0, h1]
  rcases hR with hns | hns
  · exact ⟨c0, by simp [List.take_succ_cons], hns⟩
  · exact ⟨c1, by simp [List.take_succ_cons], hns⟩

theorem pyClean_words (text : List Char) :
    ∀ w ∈ pySplitWs text, w ≠ [] ∧ ∀ c ∈ w, isPySpace c = false :=
  fun w hw => pySplitWsF_words _ _ w hw

theorem pyClean_chain (text : List Char) : (pyClean text).Chain' chR :=
  joinWords_chain _ (pyClean_words text)

theorem pyClean_head_nonspace (text : List Char) (hne : pyClean text ≠ []) :
    ∃ c t, pyClean text = c :: t ∧ isPySpace c = false := by
  unfold pyClean at hne ⊢
  cases hws : pySplitWs text with
  | nil => rw [hws] at hne; exact absurd rfl hne
  | cons w ws =>
    have hmem : w ∈ pySplitWsF text.length text := by
      unfold pySplitWs at hws
      rw [hws]
      exact List.mem_cons_self w ws
    obtain ⟨hwne, hwns⟩ := pySplitWsF_words text.length text w hmem
    cases w with
    | nil => exact absurd rfl hwne
    | cons c t =>
      obtain ⟨tt, htt⟩ := joinWords_cons_head c t ws
      rw [htt]
      exact ⟨c, tt, rfl, hwns c (List.mem_cons_self c t)⟩

theorem splitLoop_cons (cleaned : List Char) (cs step fuel start : Nat)
    (hlt : start < cleaned.length)
    (hend : start + cs < cleaned.length)
    (hpart : ¬ (pyStrip ((cleaned.drop start).take cs)).isEmpty = true) :
    splitLoop cleaned cs step (fuel + 1) start =
      pyStrip ((cleaned.drop start).take cs) ::
        splitLoop cleaned cs step fuel (start + step) := by
  conv_lhs => rw [splitLoop]
  rw [if_pos hlt]
  dsimp only
  have hmin : min cleaned.length (start + cs) = start + cs := by omega
  rw [hmin]
  have hsub : start + cs - start = cs := by omega
  rw [hsub]
  rw [if_neg (by omega : ¬ cleaned.length ≤ start + cs)]
  rw [if_neg hpart]

theorem splitLoop_last (cleaned : List Char) (cs step fuel start : Nat)
    (hlt : start < cleaned.length)
    (hend : cleaned.length ≤ start + cs)
    (hpart : ¬ (pyStrip ((cleaned.drop start).take (cleaned.length - start))).isEmpty = true) :
    splitLoop cleaned cs step (fuel + 1) start =
      [pyStrip ((cleaned.drop start).take (cleaned.length - start))] := by
  conv_lhs => rw [splitLoop]
  rw [if_pos hlt]
  dsimp only
  have hmin : min cleaned.length (start + cs) = cleaned.length := by omega
  rw [hmin]
  rw [if_pos (le_refl cleaned.length)]
  rw [if_neg hpart]

/-- Layout of the chunking loop on a 4000-character cleaned text with
chunk_size 1800 and overlap 150: windows start at 0, 1650 and 3300. -/
theorem splitTextForEmbedding_len4000 (text : List Char)
    (h : (pyClean text).length = 4000) :
    splitTextForEmbedding text 1800 150 =
      [pyStrip ((pyClean text).take 1800),
       pyStrip (((pyClean text).drop 1650).take 1800),
       pyStrip ((pyClean text).drop 3300)] ∧
    (splitTextForEmbedding text 1800 150).length = 3 ∧
    (∀ chunk ∈ splitTextForEmbedding text 1800 150,
      chunk ≠ [] ∧ chunk.length ≤ (pyClean text).length) := by
  have hne : pyClean text ≠ [] := by
    intro hn
    rw [hn] at h
    simp at h
  obtain ⟨c, t, hct, hcns⟩ := pyClean_head_nonspace text hne
  have hmem1 : c ∈ (pyClean text).take 1800 := by
    rw [hct, show (1800 : Nat) = 1799 + 1 from rfl, List.take_succ_cons]
    exact List.mem_cons_self c _
  have h1 : pyStrip ((pyClean text).take 1800) ≠ [] := pyStrip_ne_nil_of_mem hmem1 hcns
  obtain ⟨c2, hc2mem, hc2ns⟩ :=
    window_has_nonspace (pyClean_chain text) 1650 1800 (by omega) (by omega)
  have h2 : pyStrip (((pyClean text).drop 1650).take 1800) ≠ [] :=
    pyStrip_ne_nil_of_mem hc2mem hc2ns
  have hd3 : ((pyClean text).drop 3300).take 700 = (pyClean text).drop 3300 :=
    List.take_of_length_le (by rw [List.length_drop, h])
  obtain ⟨c3, hc3mem, hc3ns⟩ :=
    window_has_nonspace (pyClean_chain text) 3300 700 (by omega) (by omega)
  rw [hd3] at hc3mem
  have h3 : pyStrip ((pyClean text).drop 3300) ≠ [] := pyStrip_ne_nil_of_mem hc3mem hc3ns
  have hmain : splitTextForEmbedding text 1800 150 =
      [pyStrip ((pyClean text).take 1800),
       pyStrip (((pyClean text).drop 1650).take 1800),
       pyStrip ((pyClean text).drop 3300)] := by
    unfold splitTextForEmbedding
    rw [if_neg (by simpa [List.isEmpty_iff] using hne),
        if_neg (by omega : ¬ (pyClean text).length ≤ 1800)]
    dsimp only
    rw [show max 1 (1800 - 150) = 1650 from rfl]
    rw [show (pyClean text).length + 1 = 4000 + 1 by omega]
    rw [splitLoop_cons (pyClean text) 1800 1650 4000 0 (by omega) (by omega)
      (by simpa [List.isEmpty_iff] using h1)]
    rw [show (pyClean text).drop 0 = pyClean text from List.drop_zero _]
    rw [show (4000 : Nat) = 3999 + 1 from rfl]
    rw [show (0 : Nat) + 1650 = 1650 from rfl]
    rw [splitLoop_cons (pyClean text) 1800 1650 3999 1650 (by omega) (by omega)
      (by simpa [List.isEmpty_iff] using h2)]
    rw [show (3999 : Nat) = 3998 + 1 from rfl]
    rw [show (1650 : Nat) + 1650 = 3300 from rfl]
    rw [splitLoop_last (pyClean text) 1800 1650 3998 3300 (by omega) (by omega)
      (by rw [show (pyClean text).length - 3300 = 700 by omega, hd3]
          simpa [List.isEmpty_iff] using h3)]
    rw [show (pyClean text).length - 3300 = 700 by omega, hd3]
  refine ⟨hmain, by rw [hmain]; rfl, ?_⟩
  intro chunk hm
  rw [hmain] at hm
  have hb1 : (pyStrip ((pyClean text).take 1800)).length ≤ (pyClean text).length :=
    le_trans (pyStrip_length_le _) (le_trans (List.length_take_le _ _) (by omega))
  have hb2 : (pyStrip (((pyClean text).drop 1650).take 1800)).length ≤ (pyClean text).length :=
    le_trans (pyStrip_length_le _) (le_trans (List.length_take_le _ _) (by omega))
  have hb3 : (pyStrip ((pyClean text).drop 3300)).length ≤ (pyClean text).length :=
    le_trans (pyStrip_length_le _) (by rw [List.length_drop]; omega)
  rcases List.mem_cons.mp hm with rfl | hm
  · exact ⟨h1, hb1⟩
  rcases List.mem_cons.mp hm with rfl | hm
  · exact ⟨h2, hb2⟩
  rcases List.mem_cons.mp hm with rfl | hm
  · exact ⟨h3, hb3⟩
  · simp at hm

theorem dropWhile_eq_self_of_all {p : Char → Bool} :
    ∀ {l : List Char}, (∀ c ∈ l, p c = false) → l.dropWhile p = l := by
  intro l h
  cases l with
  | nil => rfl
  | cons a t =>
    rw [List.dropWhile_cons]
    rw [h a (List.mem_cons_self a t)]
    rfl

theorem takeWhile_eq_self_of_all {p : Char → Bool} :
    ∀ {l : List Char}, (∀ c ∈ l, p c = true) → l.takeWhile p = l := by
  intro l
  induction l with
  | nil => intro _; rfl
  | cons a t ih =>
    intro h
    rw [List.takeWhile_cons, h a (List.mem_cons_self a t), if_pos rfl]
    rw [ih (fun c hc => h c (List.mem_cons_of_mem a hc))]

theorem pySplitWsF_nil (fuel : Nat) : pySplitWsF fuel [] = [] := by
  cases fuel <;> rfl

theorem pySplitWsF_all_nonspace (fuel : Nat) (l : List Char)
    (hf : l.length ≤ fuel) (h : ∀ c ∈ l, isPySpace c = false) (hne : l ≠ []) :
    pySplitWsF fuel l = [l] := by
  cases l with
  | nil => exact absurd rfl hne
  | cons c rest =>
    cases fuel with
    | zero => simp at hf
    | succ n =>
      have hc : isPySpace c = false := h c (List.mem_cons_self c rest)
      unfold pySplitWsF
      rw [if_neg (by simp [hc])]
      have htk : rest.takeWhile (fun x => !(isPySpace x)) = rest :=
        takeWhile_eq_self_of_all
          (fun x hx => by simp [h x (List.mem_cons_of_mem c hx)])
      have hdr : rest.dropWhile (fun x => !(isPySpace x)) = [] :=
        List.dropWhile_eq_nil_iff.mpr
          (fun x hx => by simp [h x (List.mem_cons_of_mem c hx)])
      rw [htk, hdr, pySplitWsF_nil]

theorem pyClean_all_nonspace {l : List Char}
    (h : ∀ c ∈ l, isPySpace c = false) (hne : l ≠ []) : pyClean l = l := by
  unfold pyClean pySplitWs
  rw [pySplitWsF_all_nonspace l.length l (le_refl _) h hne]
  cases l with
  | nil => rfl
  | cons a t => rfl

theorem pyStrip_all_nonspace {l : List Char}
    (h : ∀ c ∈ l, isPySpace c = false) : pyStrip l = l := by
  unfold pyStrip
  rw [dropWhile_eq_self_of_all h]
  rw [dropWhile_eq_self_of_all (fun c hc => h c (List.mem_reverse.mp hc))]
  exact List.reverse_reverse l

theorem replicate_a_nonspace (n : Nat) :
    ∀ c ∈ List.replicate n 'a', isPySpace c = false := by
  intro c hc
  rw [List.eq_of_mem_replicate hc]
  decide

theorem pyClean_replicate_a :
    pyClean (List.replicate 4000 'a') = List.replicate 4000 'a' :=
  pyClean_all_nonspace (replicate_a_nonspace 4000)
    (by
      intro hnil
      have hl := congrArg List.length hnil
      rw [List.length_replicate] at hl
      exact absurd hl (by decide))

/-- C6 counterexample: on a 4000-character cleaned text of letters, the three
chunks have lengths 1800, 1800, 700 — the third window starts at offset 3300
(= 2·(1800−150)), not 2200, so the chunk list is not the one the claimed
start offsets {0, 1650, 2200} would produce (whose third chunk would be the
1800 characters from offset 2200 to the text's end). -/
theorem c6_counterexample :
    (splitTextForEmbedding (List.replicate 4000 'a') 1800 150).map List.length
        = [1800, 1800, 700] ∧
    splitTextForEmbedding (List.replicate 4000 'a') 1800 150 ≠
      [List.replicate 1800 'a', List.replicate 1800 'a',
       ((List.replicate 4000 'a').drop 2200).take 1800] := by
  have hlen : (pyClean (List.replicate 4000 'a')).length = 4000 := by
    rw [pyClean_replicate_a]
    exact List.length_replicate 4000 'a'
  obtain ⟨hmain, -, -⟩ := splitTextForEmbedding_len4000 (List.replicate 4000 'a') hlen
  rw [pyClean_replicate_a] at hmain
  rw [List.take_replicate, show min 1800 4000 = 1800 from by decide] at hmain
  rw [List.drop_replicate, show (4000 : Nat) - 1650 = 2350 from by decide] at hmain
  rw [List.take_replicate, show min 1800 2350 = 1800 from by decide] at hmain
  rw [List.drop_replicate, show (4000 : Nat) - 3300 = 700 from by decide] at hmain
  rw [pyStrip_all_nonspace (replicate_a_nonspace 1800),
      pyStrip_all_nonspace (replicate_a_nonspace 700)] at hmain
  constructor
  · rw [hmain]
    rw [List.map_cons, List.map_cons, List.map_cons, List.map_nil]
    rw [List.length_replicate, List.length_replicate]
  · rw [hmain]
    rw [List.drop_replicate, show (4000 : Nat) - 2200 = 1800 from by decide]
    rw [List.take_replicate, show min 1800 1800 = 1800 from by decide]
    intro heq
    rw [List.cons_eq_cons, List.cons_eq_cons, List.cons_eq_cons] at heq
    have h3 : List.replicate 700 'a' = List.replicate 1800 'a' := heq.2.2.1
    have hl := congrArg List.length h3
    rw [List.length_replicate, List.length_replicate] at hl
    exact absurd hl (by decide)

/-- C6 (amended): for chunk_size=1800 and overlap=150, chunking a text whose
cleaned form has exactly 4000 characters yields exactly 3 chunks, the
(whitespace-trimmed) windows at start offsets {0, 1650, 3300}, with the last
chunk running exactly to the text's end, no chunk exceeding the source
length, and every chunk non-empty.  (The original claim's third start offset
2200 is wrong: the loop advances by chunk_size - overlap = 1650 from 1650 to
3300 and trims the final window to the 700 remaining characters.) -/
theorem c6_chunk_layout (text : List Char) (h : (pyClean text).length = 4000) :
    splitTextForEmbedding text 1800 150 =
      [pyStrip ((pyClean text).take 1800),
       pyStrip (((pyClean text).drop 1650).take 1800),
       pyStrip ((pyClean text).drop 3300)] ∧
    (splitTextForEmbedding text 1800 150).length = 3 ∧
    (∀ chunk ∈ splitTextForEmbedding text 1800 150,
      chunk ≠ [] ∧ chunk.length ≤ (pyClean text).length) :=
  splitTextForEmbedding_len4000 text h

/-- C6 witness: the layout theorem applies to the concrete 4000-letter text. -/
theorem c6_chunk_layout_witness :
    (pyClean (List.replicate 4000 'a')).length = 4000 ∧
    (splitTextForEmbedding (List.replicate 4000 'a') 1800 150).length = 3 :=
  ⟨by rw [pyClean_replicate_a]; exact List.length_replicate 4000 'a',
   (c6_chunk_layout (List.replicate 4000 'a')
      (by rw [pyClean_replicate_a]; exact List.length_replicate 4000 'a')).2.1⟩

/- ### C9: empty strings in assembled context fields -/

theorem pyJoin_append3_ne_empty (sep : String) (l1 l2 l3 : List String)
    (h1 : l1 = [] ∨ ∃ a t, l1 = a :: t ∧ a ≠ "")
    (h2 : l2 = [] ∨ ∃ a t, l2 = a :: t ∧ a ≠ "")
    (h3 : l3 = [] ∨ ∃ a t, l3 = a :: t ∧ a ≠ "")
    (hne : l1 ++ l2 ++ l3 ≠ []) :
    pyJoin sep (l1 ++ l2 ++ l3) ≠ "" := by
  rcases h1 with rfl | ⟨a, t, rfl, ha⟩
  · rcases h2 with rfl | ⟨a, t, rfl, ha⟩
    · rcases h3 with rfl | ⟨a, t, rfl, ha⟩
      · simp at hne
      · rw [List.nil_append, List.nil_append]
        exact pyJoin_cons_ne_empty sep t ha
    · rw [List.nil_append, List.cons_append]
      exact pyJoin_cons_ne_empty sep _ ha
  · rw [List.cons_append, List.cons_append]
    exact pyJoin_cons_ne_empty sep _ ha

theorem pyJoin_take_map_ne_empty {α : Type} (sep : String) (f : α → String)
    (hf : ∀ a, f a ≠ "") (n : Nat) (hn : 0 < n) (l : List α)
    (hl : ¬ l.isEmpty = true) :
    pyJoin sep ((l.take n).map f) ≠ "" := by
  cases l with
  | nil => simp at hl
  | cons a t =>
    cases n with
    | zero => exact absurd hn (by decide)
    | succ m =>
      rw [List.take_succ_cons, List.map_cons]
      exact pyJoin_cons_ne_empty sep _ (hf a)

theorem pyJoin_map_ne_empty {α : Type} (sep : String) (f : α → String)
    (hf : ∀ a, f a ≠ "") (l : List α)
    (hl : ¬ (l.map f).isEmpty = true) :
    pyJoin sep (l.map f) ≠ "" := by
  cases l with
  | nil => simp at hl
  | cons a t =>
    rw [List.map_cons]
    exact pyJoin_cons_ne_empty sep _ (hf a)

theorem optNonempty_none : optNonempty none :=
  fun _ hs => Option.noConfusion hs

theorem optNonempty_ite {c : Prop} [Decidable c] {a b : Option String}
    (ha : optNonempty a) (hb : optNonempty b) : optNonempty (if c then a else b) := by
  by_cases hc : c
  · rw [if_pos hc]
    exact ha
  · rw [if_neg hc]
    exact hb

theorem ite_ne_empty {c : Prop} [Decidable c] {a b : String}
    (ha : c → a ≠ "") (hb : ¬ c → b ≠ "") : (if c then a else b) ≠ "" := by
  by_cases hc : c
  · rw [if_pos hc]
    exact ha hc
  · rw [if_neg hc]
    exact hb hc

theorem ite_none_eq_some {c : Prop} [Decidable c] {x s : String}
    (h : (if c then none else some x) = some s) : ¬ c ∧ x = s := by
  by_cases hc : c
  · rw [if_pos hc] at h
    exact absurd h (by simp)
  · rw [if_neg hc] at h
    rw [Option.some.injEq] at h
    exact ⟨hc, h⟩

theorem optNonempty_careersText {α : Type} (sep : String) (f : α → String)
    (hf : ∀ a, f a ≠ "") (l : List α) :
    optNonempty (if (l.map f).isEmpty = true then none
      else some (pyJoin sep (l.map f))) := by
  intro s hs
  obtain ⟨h, hx⟩ := ite_none_eq_some hs
  subst hx
  exact pyJoin_map_ne_empty sep f hf l h

theorem toneIf_ne_empty (t1 t2 : Option String) :
    (if truthy (if truthy t1 = true then t1 else t2) = true
      then (if truthy t1 = true then t1 else t2).getD "" else "未设定") ≠ "" := by
  by_cases he : truthy t1 = true
  · rw [if_pos he, if_pos he]
    exact truthy_getD_ne_empty he
  · rw [if_neg he]
    by_cases h2 : truthy t2 = true
    · rw [if_pos h2]
      exact truthy_getD_ne_empty h2
    · rw [if_neg h2]
      decide

theorem charHeadLine_ne_empty (c : CharacterRec) : charHeadLine c ≠ "" := by
  unfold charHeadLine
  exact append_ne_empty_of_right _ (by decide)

theorem careerDetail1N_ne_empty : ∀ career : CareerRec, careerDetail1N career ≠ "" := by
  intro career
  unfold careerDetail1N
  simp only [List.cons_append, List.nil_append]
  exact pyJoin_cons_ne_empty _ _ (append_ne_empty_of_right _ (by decide))

theorem careerDetail11_ne_empty : ∀ career : CareerRec, careerDetail11 career ≠ "" := by
  intro career
  unfold careerDetail11
  simp only [List.cons_append, List.nil_append]
  exact pyJoin_cons_ne_empty _ _ (append_ne_empty_of_right _ (by decide))

theorem charInfo1N_ne_empty (allCharacters : List CharacterRec) (db : CharDbEnv)
    (relsSel : List RelRec) (membershipSel : List OrgMembershipRow)
    (ccSel : List CharCareerRec) (careersMapList : List CareerRec)
    (orgsSel : List OrganizationRec) :
    ∀ c, charInfo1N allCharacters db relsSel membershipSel ccSel careersMapList orgsSel c
      ≠ "" := by
  intro c
  unfold charInfo1N
  simp only [List.cons_append, List.nil_append]
  exact pyJoin_cons_ne_empty _ _ (charHeadLine_ne_empty c)

theorem extractEmotionalTone_ne_empty (ch : ChapterRec) (outline : Option OutlineRec) :
    extractEmotionalTone ch outline ≠ "" := by
  unfold extractEmotionalTone
  dsimp only
  split
  · split
    · rename_i h
      exact truthy_getD_ne_empty h
    · split
      · split
        · exact toneIf_ne_empty _ _
        · decide
        · decide
      · decide
  · split
    · split
      · exact toneIf_ne_empty _ _
      · decide
      · decide
    · decide
  · split
    · split
      · exact toneIf_ne_empty _ _
      · decide
      · decide
    · decide

theorem buildRecentChaptersContext_optNonempty (rows : List RecentRow) (failed : Bool) :
    optNonempty (buildRecentChaptersContext rows failed) := by
  intro s hs
  unfold buildRecentChaptersContext at hs
  split at hs
  · simp at hs
  · split at hs
    · simp at hs
    · dsimp only at hs
      split at hs
      · simp at hs
      · rw [Option.some.injEq] at hs
        subst hs
        exact pyJoin_cons_ne_empty _ _ (by decide)

theorem getRelevantMemoriesEnhanced_optNonempty (o : Option String) (menv : MemorySearchEnv) :
    optNonempty (getRelevantMemoriesEnhanced o menv) := by
  intro s hs
  unfold getRelevantMemoriesEnhanced at hs
  split at hs
  · simp at hs
  · split at hs
    · simp at hs
    · split at hs
      · simp at hs
      · dsimp only at hs
        split at hs
        · simp at hs
        · split at hs
          · rw [Option.some.injEq] at hs
            subst hs
            exact pyJoin_cons_ne_empty _ _ (by decide)
          · simp at hs

theorem getRelevantMemories11_optNonempty (o : Option String) (menv : MemorySearchEnv) :
    optNonempty (getRelevantMemories11 o menv) := by
  intro s hs
  unfold getRelevantMemories11 at hs
  split at hs
  · split at hs
    · simp at hs
    · dsimp only at hs
      split at hs
      · simp at hs
      · rw [Option.some.injEq] at hs
        subst hs
        exact pyJoin_cons_ne_empty _ _ (by decide)
  · simp at hs

theorem getForeshadowReminders_optNonempty (fenv : ForeshadowEnv) (n : Int) :
    optNonempty (getForeshadowReminders fenv n) := by
  intro s hs
  unfold getForeshadowReminders at hs
  split at hs
  · simp at hs
  · split at hs
    · simp at hs
    · dsimp only at hs
      obtain ⟨hne, hx⟩ := ite_none_eq_some hs
      subst hx
      refine pyJoin_append3_ne_empty "\n" _ _ _ ?_ ?_ ?_ ?_
      · split
        · exact Or.inl rfl
        · exact Or.inr ⟨_, _, rfl, by decide⟩
      · split
        · exact Or.inl rfl
        · exact Or.inr ⟨_, _, rfl, by decide⟩
      · split
        · exact Or.inl rfl
        · exact Or.inr ⟨_, _, List.cons_append _ _ _, by decide⟩
      · intro h0
        rw [h0] at hne
        exact hne rfl

theorem buildChapterCharacters1N_fst_ne_empty (chapter : ChapterRec)
    (allCharacters : List CharacterRec) (db : CharDbEnv) :
    (buildChapterCharacters1N chapter allCharacters db).1 ≠ "" := by
  unfold buildChapterCharacters1N
  rw [apply_ite Prod.fst]
  refine ite_ne_empty (fun _ => by decide) (fun _ => ?_)
  dsimp only
  rw [apply_ite Prod.fst]
  refine ite_ne_empty (fun _ => by decide) (fun hc => ?_)
  dsimp only
  refine pyJoin_take_map_ne_empty _ _ ?_ 10 (by decide) _ hc
  exact charInfo1N_ne_empty _ _ _ _ _ _ _

theorem buildChapterCharacters1N_snd_optNonempty (chapter : ChapterRec)
    (allCharacters : List CharacterRec) (db : CharDbEnv) :
    optNonempty (buildChapterCharacters1N chapter allCharacters db).2 := by
  unfold buildChapterCharacters1N
  rw [apply_ite Prod.snd]
  refine optNonempty_ite (fun _ hs => Option.noConfusion hs) ?_
  dsimp only
  rw [apply_ite Prod.snd]
  refine optNonempty_ite (fun _ hs => Option.noConfusion hs) ?_
  dsimp only
  exact optNonempty_careersText _ _ careerDetail1N_ne_empty _

theorem buildCharactersAndCareers11_snd_optNonempty (allCharacters : List CharacterRec)
    (db : CharDbEnv) (characters : List CharacterRec) (filterNames : List String) :
    optNonempty (buildCharactersAndCareers11 allCharacters db characters filterNames).2 := by
  unfold buildCharactersAndCareers11
  rw [apply_ite Prod.snd]
  refine optNonempty_ite (fun _ hs => Option.noConfusion hs) ?_
  dsimp only
  rw [apply_ite Prod.snd]
  refine optNonempty_ite (fun _ hs => Option.noConfusion hs) ?_
  dsimp only
  exact optNonempty_careersText _ _ careerDetail11_ne_empty _

/-- C9 counterexample: with a project row whose genre column is NULL, the 1-N
assembler emits `genre = ""` (from Python `project.genre or ""`), and the 1-1
assembler, given an outline whose parsed structure JSON has none of the
recognized fields, emits `chapter_outline = some ""` — both are empty-string
textual fields, so "assemblers never emit empty strings" fails as stated. -/
theorem c9_counterexample :
    (buildOneToMany ⟨1, none, none, none, none⟩ ⟨none, none, none, none⟩ none 2000 none
        ⟨[], false, none, none, [], ⟨[], [], [], [], [], []⟩,
         ⟨false, Except.ok []⟩, ⟨false, false, [], [], []⟩⟩).genre = "" ∧
    (buildOneToOne ⟨1, none, none, none, none⟩ ⟨none, none, none, none⟩
        (some ⟨none, some (some ⟨none, [], [], none, none, none, []⟩)⟩) 2000
        ⟨none, none, [], ⟨[], [], [], [], [], []⟩,
         ⟨false, Except.ok []⟩, ⟨false, false, [], [], []⟩⟩).chapter_outline = some "" :=
  ⟨rfl, rfl⟩

/-- C9 (amended): the retrieval- and helper-produced textual fields of both
context shapes are never the empty string: in 1-N mode
`recent_chapters_context`, `relevant_memories`, `foreshadow_reminders` and
`chapter_careers` are None or non-empty, and `emotional_tone` and
`chapter_characters` are always non-empty; in 1-1 mode `foreshadow_reminders`,
`relevant_memories`, `chapter_careers` and `previous_chapter_summary` are None
or non-empty.  (The original universal claim is false: fields copied straight
from nullable columns with `or ""` — title, genre, theme, chapter_title — are
empty when the column is NULL, and a structure outline with no recognized
fields yields an empty chapter_outline.) -/
theorem c9_textual_fields (ch : ChapterRec) (proj : ProjectRec)
    (outline : Option OutlineRec) (twc : Int) (tnp : Option String)
    (envN : OneToManyEnv) (env1 : OneToOneEnv) :
    optNonempty (buildOneToMany ch proj outline twc tnp envN).recent_chapters_context ∧
    optNonempty (buildOneToMany ch proj outline twc tnp envN).relevant_memories ∧
    optNonempty (buildOneToMany ch proj outline twc tnp envN).foreshadow_reminders ∧
    optNonempty (buildOneToMany ch proj outline twc tnp envN).chapter_careers ∧
    (buildOneToMany ch proj outline twc tnp envN).emotional_tone ≠ "" ∧
    (buildOneToMany ch proj outline twc tnp envN).chapter_characters ≠ "" ∧
    optNonempty (buildOneToOne ch proj outline twc env1).foreshadow_reminders ∧
    optNonempty (buildOneToOne ch proj outline twc env1).relevant_memories ∧
    optNonempty (buildOneToOne ch proj outline twc env1).chapter_careers ∧
    optNonempty (buildOneToOne ch proj outline twc env1).previous_chapter_summary := by
  refine ⟨?_, ?_, ?_, ?_, ?_, ?_, ?_, ?_, ?_, ?_⟩
  · intro s hs
    unfold buildOneToMany at hs
    dsimp only at hs
    split at hs
    · exact buildRecentChaptersContext_optNonempty _ _ s hs
    · simp at hs
  · intro s hs
    unfold buildOneToMany at hs
    dsimp only at hs
    split at hs
    · exact getRelevantMemoriesEnhanced_optNonempty _ _ s hs
    · simp at hs
  · intro s hs
    unfold buildOneToMany at hs
    dsimp only at hs
    split at hs
    · exact getForeshadowReminders_optNonempty _ _ s hs
    · simp at hs
  · intro s hs
    unfold buildOneToMany at hs
    dsimp only at hs
    exact buildChapterCharacters1N_snd_optNonempty _ _ _ s hs
  · unfold buildOneToMany
    dsimp only
    exact extractEmotionalTone_ne_empty ch outline
  · unfold buildOneToMany
    dsimp only
    exact buildChapterCharacters1N_fst_ne_empty _ _ _
  · intro s hs
    unfold buildOneToOne at hs
    dsimp only at hs
    split at hs
    · exact getForeshadowReminders_optNonempty _ _ s hs
    · simp at hs
  · intro s hs
    unfold buildOneToOne at hs
    dsimp only at hs
    exact getRelevantMemories11_optNonempty _ _ s hs
  · intro s hs
    unfold buildOneToOne at hs
    dsimp only at hs
    split at hs
    · split at hs
      · exact buildCharactersAndCareers11_snd_optNonempty _ _ _ _ s hs
      · simp at hs
    · simp at hs
  · intro s hs
    unfold buildOneToOne at hs
    dsimp only at hs
    split at hs
    · split at hs
      · split at hs
        · dsimp only at hs
          split at hs
          · rename_i h
            rw [Option.some.injEq] at hs
            subst hs
            exact pyTake_ne_empty 300 (truthy_getD_ne_empty h) (by decide)
          · split at hs
            · rename_i h
              rw [Option.some.injEq] at hs
              subst hs
              exact pyTake_ne_empty 300 (truthy_getD_ne_empty h) (by decide)
            · simp at hs
        · simp at hs
      · simp at hs
    · simp at hs

end Spec2Proof
